import Mathlib

/-!
Verification development for the java2flutter repository: a shallow Lean
embedding of the Python sources under `src/` (resource resolver, XML markup
parser, Java handler extraction, statement lowering, widget translation and
the generation entry point), together with theorems settling the frozen
claims about the program.  Machine-float parsing/formatting and file-system
reads enter the embedding as explicit oracle parameters; regular-expression
scans are embedded at the granularity of their match results, with the
post-match logic translated faithfully from the source.
-/

namespace J2F

/-! ## Python string primitives (ASCII model) -/

/-- Characters removed by Python `str.strip()` with no arguments. -/
def isPySpace (c : Char) : Bool :=
  c = ' ' || c = '\t' || c = '\n' || c = '\r' || c = '\x0b' || c = '\x0c'

/-- Word characters of the regex class `\w` (ASCII model). -/
def isWordChar (c : Char) : Bool := c.isAlphanum || c = '_'

/-- Strips `isPySpace` characters from both ends of a character list. -/
def stripChars (l : List Char) : List Char :=
  ((l.dropWhile isPySpace).reverse.dropWhile isPySpace).reverse

/-- Python `str.strip()`. -/
def pyStrip (s : String) : String := String.mk (stripChars s.data)

/-- Python `str.lower()` (ASCII model). -/
def pyLower (s : String) : String := String.mk (s.data.map Char.toLower)

/-- Python `str.upper()` (ASCII model). -/
def pyUpper (s : String) : String := String.mk (s.data.map Char.toUpper)

/-- Python `str.capitalize()`: first character upper-cased, rest lower-cased. -/
def pyCapitalize (s : String) : String :=
  match s.data with
  | [] => ""
  | c :: rest => String.mk (c.toUpper :: rest.map Char.toLower)

/-- Python `x in s` substring test. -/
def containsStr (hay needle : String) : Bool :=
  hay.data.tails.any (fun t => needle.data.isPrefixOf t)

/-- Python `s.startswith(pre)`; written over character lists so that it
reduces in the kernel. -/
def startsWithStr (s pre : String) : Bool := pre.data.isPrefixOf s.data

/-- Python `str.split` on a one-character separator. -/
def splitOnChar (c : Char) : List Char → List (List Char)
  | [] => [[]]
  | x :: rest =>
    let r := splitOnChar c rest
    if x = c then [] :: r
    else
      match r with
      | [] => [[x]]
      | h :: t => (x :: h) :: t

/-- Python `s.split(sep)[-1]` for a one-character separator: the suffix after
the last occurrence, the whole string when the separator is absent. -/
def lastSplitSegment (s : String) (sep : Char) : String :=
  String.mk ((s.data.reverse.takeWhile (fun x => x != sep)).reverse)

/-- Python `s.split(sep)[0]` for a one-character separator: the prefix before
the first occurrence. -/
def headSplitSegment (s : String) (sep : Char) : String :=
  String.mk (s.data.takeWhile (fun x => x != sep))

/-- Python `s.split("/", 1)[1]` for strings known to contain a slash. -/
def afterFirstSlash (s : String) : String :=
  String.mk ((s.data.dropWhile (fun c => c != '/')).drop 1)

/-- Python `s.rstrip(chars)` restricted to a Boolean character class. -/
def pyRstrip (s : String) (p : Char → Bool) : String :=
  String.mk ((s.data.reverse.dropWhile p).reverse)

/-! ## Association lists modelling Python dicts

Python `dict` assignment keeps the original position of an overwritten key;
`ainsert` mirrors that.  `plookup` is `dict.get`. -/

/-- Lookup in an association list (Python `d.get(k)`). -/
def plookup {α : Type} : List (String × α) → String → Option α
  | [], _ => none
  | (k', v') :: rest, k => if k' = k then some v' else plookup rest k

/-- Python `d[k] = v`: update in place when the key exists, append otherwise. -/
def ainsert {α : Type} (m : List (String × α)) (k : String) (v : α) :
    List (String × α) :=
  match m with
  | [] => [(k, v)]
  | (k', v') :: rest =>
    if k' = k then (k, v) :: rest else (k', v') :: ainsert rest k v

theorem plookup_ainsert {α : Type} (m : List (String × α)) (k j : String) (v : α) :
    plookup (ainsert m k v) j = if k = j then some v else plookup m j := by
  induction m with
  | nil =>
    by_cases h : k = j <;> simp [ainsert, plookup, h]
  | cons p rest ih =>
    obtain ⟨k', v'⟩ := p
    by_cases hk : k' = k
    · subst hk
      by_cases h : k' = j <;> simp [ainsert, plookup, h]
    · by_cases h : k' = j
      · subst h
        have hkj : ¬ k = k' := fun hc => hk hc.symm
        simp [ainsert, hk, plookup, hkj]
      · by_cases hkj : k = j
        · subst hkj
          simp [ainsert, hk, plookup, h, ih]
        · simp [ainsert, hk, plookup, h, hkj, ih]

theorem ainsert_ne_nil {α : Type} (m : List (String × α)) (k : String) (v : α) :
    ainsert m k v ≠ [] := by
  cases m with
  | nil => simp [ainsert]
  | cons p rest =>
    obtain ⟨k', v'⟩ := p
    by_cases h : k' = k <;> simp [ainsert, h]

/-! ## Resource resolver (src/parser/resource_resolver.py)

The four tables of the `ResourceResolver` class are modelled as association
lists; directory scanning enters via entry lists in the loading functions
further below. -/

/-- State of `ResourceResolver`: colors, strings, dimens and drawables maps. -/
structure ResourceResolver where
  colors : List (String × String)
  strings : List (String × String)
  dimens : List (String × String)
  drawables : List (String × String)

/-- Embeds `ResourceResolver.resolve` (resource_resolver.py lines 138-153):
reference prefixes are looked up in the matching table, with the original
string as the default; anything else is returned unchanged. -/
def ResourceResolver.resolve (r : ResourceResolver) (val : String) : String :=
  if startsWithStr val "@color/" then
    (plookup r.colors (afterFirstSlash val)).getD val
  else if startsWithStr val "@string/" then
    (plookup r.strings (afterFirstSlash val)).getD val
  else if startsWithStr val "@dimen/" then
    (plookup r.dimens (afterFirstSlash val)).getD val
  else if startsWithStr val "@drawable/" then
    (plookup r.drawables (afterFirstSlash val)).getD val
  else val

/-- Embeds `ResourceResolver.resolve_drawable_path`
(resource_resolver.py lines 155-162). -/
def ResourceResolver.resolve_drawable_path (r : ResourceResolver) (val : String) :
    Option String :=
  if startsWithStr val "@drawable/" then plookup r.drawables (afterFirstSlash val)
  else none

/-- Embeds the static method `ResourceResolver.android_color_to_flutter`
(resource_resolver.py lines 180-194): after stripping, a hash-prefixed string
whose remainder has length 6 becomes `0xFF` plus the upper-cased remainder,
length 8 becomes `0x` plus the upper-cased remainder, and anything else is
`none`.  Only the length is tested; the characters are not checked for being
hexadecimal digits. -/
def android_color_to_flutter (c : String) : Option String :=
  match stripChars c.data with
  | '#' :: hexv =>
    if hexv.length = 6 then some ("0xFF" ++ String.mk (hexv.map Char.toUpper))
    else if hexv.length = 8 then some ("0x" ++ String.mk (hexv.map Char.toUpper))
    else none
  | _ => none

theorem dropWhile_eq_self_of_forall {p : Char → Bool} :
    ∀ l : List Char, (∀ c ∈ l, p c = false) → l.dropWhile p = l := by
  intro l h
  cases l with
  | nil => rfl
  | cons a l =>
    have ha : p a = false := h a (List.mem_cons_self a l)
    simp [List.dropWhile_cons, ha]

theorem stripChars_hash (hexv : List Char)
    (hnw : ∀ c ∈ hexv, isPySpace c = false) :
    stripChars ('#' :: hexv) = '#' :: hexv := by
  have hh : isPySpace '#' = false := by decide
  have h1 : ('#' :: hexv).dropWhile isPySpace = '#' :: hexv := by
    simp [List.dropWhile_cons, hh]
  have h2 : ∀ c ∈ ('#' :: hexv).reverse, isPySpace c = false := by
    intro c hc
    rcases List.mem_reverse.mp hc with hc'
    rcases List.mem_cons.mp hc' with h | h
    · subst h; exact hh
    · exact hnw c h
  unfold stripChars
  rw [h1, dropWhile_eq_self_of_forall _ h2, List.reverse_reverse]

/-- Claim C4, counterexample: the claim predicts an 8-hex-digit input is
passed through unchanged after the `0x` marker, and that a hash-prefixed
non-hex-digit string (an "other shape") yields none; the code upper-cases the
digits and accepts any characters of the right length. -/
theorem c4_counterexample :
    android_color_to_flutter "#aabbccdd" = some "0xAABBCCDD"
    ∧ android_color_to_flutter "#aabbccdd" ≠ some "0xaabbccdd"
    ∧ android_color_to_flutter "#zzzzzz" = some "0xFFZZZZZZ" := by
  refine ⟨by decide, by decide, by decide⟩

/-- Claim C4 as amended: for hash-prefixed input whose remainder (any
characters, not just hex digits, with no surrounding Python whitespace) has
length 6, the function returns `0xFF` followed by the upper-cased remainder,
and for length 8 it returns `0x` followed by the upper-cased remainder. -/
theorem c4_amended (hexv : List Char)
    (hnw : ∀ c ∈ hexv, isPySpace c = false) :
    (hexv.length = 6 →
      android_color_to_flutter (String.mk ('#' :: hexv)) =
        some ("0xFF" ++ String.mk (hexv.map Char.toUpper)))
    ∧ (hexv.length = 8 →
      android_color_to_flutter (String.mk ('#' :: hexv)) =
        some ("0x" ++ String.mk (hexv.map Char.toUpper))) := by
  have hs : stripChars ('#' :: hexv) = '#' :: hexv := stripChars_hash hexv hnw
  constructor
  · intro h6
    simp [android_color_to_flutter, hs, h6]
  · intro h8
    simp [android_color_to_flutter, hs, h8]

/-- Witness for the amended claim C4 at the spec's Scenario C inputs. -/
theorem c4_amended_witness :
    android_color_to_flutter (String.mk ('#' :: "336699".data)) =
      some ("0xFF" ++ String.mk ("336699".data.map Char.toUpper))
    ∧ android_color_to_flutter (String.mk ('#' :: "AA336699".data)) =
      some ("0x" ++ String.mk ("AA336699".data.map Char.toUpper)) :=
  ⟨(c4_amended "336699".data (by decide)).1 (by decide),
   (c4_amended "AA336699".data (by decide)).2 (by decide)⟩

/-- Claim C9: `resolve` is the identity on any string that carries none of
the four reference prefixes, hence idempotent there; the embedding is a total
function, matching the never-raises contract. -/
theorem c9_resolve_idempotent (r : ResourceResolver) (x : String)
    (h1 : startsWithStr x "@color/" = false)
    (h2 : startsWithStr x "@string/" = false)
    (h3 : startsWithStr x "@dimen/" = false)
    (h4 : startsWithStr x "@drawable/" = false) :
    r.resolve x = x ∧ r.resolve (r.resolve x) = r.resolve x := by
  have hx : r.resolve x = x := by
    simp [ResourceResolver.resolve, h1, h2, h3, h4]
  exact ⟨hx, by rw [hx, hx]⟩

/-- Witness for claim C9 at the literal `"#336699"`. -/
theorem c9_resolve_idempotent_witness :
    (ResourceResolver.mk [] [] [] []).resolve "#336699" = "#336699"
    ∧ (ResourceResolver.mk [] [] [] []).resolve
        ((ResourceResolver.mk [] [] [] []).resolve "#336699") =
      (ResourceResolver.mk [] [] [] []).resolve "#336699" :=
  c9_resolve_idempotent (ResourceResolver.mk [] [] [] []) "#336699"
    (by decide) (by decide) (by decide) (by decide)

/-! ## Markup attribute conversion (src/parser/xml_parser.py)

An element's raw attribute keys are either namespaced (`{ns}local` in lxml,
split by the source on the closing brace) or plain; `_convert_node` folds the
attribute items in document order into a flat dict. -/

/-- Raw attribute key as seen by `_convert_node`. -/
inductive RawAttrKey where
  | namespaced (ns loc : String)
  | plain (k : String)

/-- Namespace URI constant `ANDROID_NS` from xml_parser.py. -/
def ANDROID_NS : String := "\x7bhttp://schemas.android.com/apk/res/android\x7d"

/-- Namespace URI constant `APP_NS` from xml_parser.py. -/
def APP_NS : String := "\x7bhttp://schemas.android.com/apk/res-auto\x7d"

/-- One step of the attribute loop of `_convert_node`
(xml_parser.py lines 39-52).  Note the `srcCompat` alias writes `src`
unconditionally. -/
def convert_attr_step (attrs : List (String × String)) :
    RawAttrKey × String → List (String × String)
  | (.namespaced ns loc, v) =>
    if ns = ANDROID_NS then ainsert attrs loc v
    else if ns = APP_NS then
      let attrs' := ainsert attrs loc v
      if loc = "srcCompat" then ainsert attrs' "src" v else attrs'
    else ainsert attrs (ns ++ loc) v
  | (.plain k, v) => ainsert attrs k v

/-- The flat attribute dict built by `_convert_node` from the raw attribute
items in document order. -/
def convert_node_attrs (raw : List (RawAttrKey × String)) :
    List (String × String) :=
  raw.foldl convert_attr_step []

/-- Claim C6, counterexample: an element declaring `android:src` before
`app:srcCompat` ends with the srcCompat value under the legacy `src` key, so
an element that declares both does not keep its own legacy value. -/
theorem c6_counterexample :
    plookup (convert_node_attrs
      [(.namespaced ANDROID_NS "src", "@drawable/legacy"),
       (.namespaced APP_NS "srcCompat", "@drawable/compat")]) "src" =
      some "@drawable/compat"
    ∧ plookup (convert_node_attrs
      [(.namespaced ANDROID_NS "src", "@drawable/legacy"),
       (.namespaced APP_NS "srcCompat", "@drawable/compat")]) "src" ≠
      some "@drawable/legacy" := by
  refine ⟨by decide, by decide⟩

/-- Claim C6 as amended: processing an `app:srcCompat` attribute writes its
value under the legacy `src` key unconditionally, overwriting any value
already present; with no later attributes the element's `src` is the
srcCompat value regardless of what came before. -/
theorem c6_amended (l : List (RawAttrKey × String)) (v : String) :
    plookup (convert_node_attrs
      (l ++ [(.namespaced APP_NS "srcCompat", v)])) "src" = some v := by
  have hne : ¬ (APP_NS = ANDROID_NS) := by decide
  unfold convert_node_attrs
  rw [List.foldl_append]
  simp only [List.foldl_cons, List.foldl_nil]
  show plookup (convert_attr_step _ _) "src" = some v
  simp [convert_attr_step, hne, plookup_ainsert]

/-! ## Handler-name registration and lookup
(src/translator/generator.py lines 774-807 and
src/translator/view_rules.py lines 11-50)

Both files define identical copies of `_to_camel` and `_to_snake`; they are
embedded once. -/

/-- Embeds `_to_camel`: first underscore-separated part (after replacing
dashes) verbatim, later parts capitalized. -/
def _to_camel (s : String) : String :=
  if s = "" then s
  else
    match (splitOnChar '_'
        (s.data.map (fun c => if c = '-' then '_' else c))).map String.mk with
    | [] => ""
    | p :: rest => p ++ String.join (rest.map pyCapitalize)

/-- Embeds `_to_snake`: an underscore before each upper-case character except
at the start, and everything lower-cased where upper. -/
def _to_snake (s : String) : String :=
  if s = "" then s
  else
    String.mk (s.data.foldl
      (fun out c =>
        if c.isUpper then
          (if out ≠ [] then out ++ ['_', c.toLower] else out ++ [c.toLower])
        else out ++ [c]) [])

/-- Embeds `_handler_key_candidates` (view_rules.py lines 32-41). -/
def _handler_key_candidates (xml_id : String) : List String :=
  if xml_id = "" then []
  else [xml_id, pyLower xml_id, pyCapitalize xml_id,
        _to_camel xml_id, _to_snake xml_id]

/-- First successful lookup among candidate keys, in order. -/
def firstHit (m : List (String × String)) : List String → Option String
  | [] => none
  | k :: ks =>
    match plookup m k with
    | some v => some v
    | none => firstHit m ks

/-- Embeds `_find_handler` (view_rules.py lines 44-50). -/
def _find_handler (logic_map : List (String × String)) (xml_id : String) :
    Option String :=
  if logic_map.isEmpty || xml_id = "" then none
  else firstHit logic_map (_handler_key_candidates xml_id)

/-- Embeds `_register_logic_keys` (generator.py lines 795-807).  The source
collects the five candidate spellings into a Python set before inserting;
since every insertion carries the same value, iterating the list directly is
equivalent. -/
def _register_logic_keys (logic_map : List (String × String))
    (xml_id func_name : String) : List (String × String) :=
  [xml_id, pyLower xml_id, pyCapitalize xml_id,
   _to_camel xml_id, _to_snake xml_id].foldl
    (fun m k => if k ≠ "" then ainsert m k func_name else m) logic_map

theorem plookup_register_foldl (ks : List String) (m : List (String × String))
    (j name : String) (hj : j ≠ "")
    (h : j ∈ ks ∨ plookup m j = some name) :
    plookup (ks.foldl
      (fun m k => if k ≠ "" then ainsert m k name else m) m) j = some name := by
  induction ks generalizing m with
  | nil =>
    rcases h with h | h
    · exact absurd h (List.not_mem_nil j)
    · simpa using h
  | cons k ks ih =>
    simp only [List.foldl_cons]
    rcases h with h | h
    · rcases List.mem_cons.mp h with h | h
      · subst h
        apply ih
        right
        rw [if_pos hj, plookup_ainsert, if_pos rfl]
      · exact ih _ (Or.inl h)
    · apply ih
      right
      by_cases hk : k ≠ ""
      · rw [if_pos hk, plookup_ainsert]
        by_cases hkj : k = j
        · simp [hkj]
        · simpa [hkj] using h
      · simpa [hk] using h

/-- Claim C10: after `_register_logic_keys` stores a function name for an
xml id, `_find_handler` on the same id returns exactly that name, because the
candidate key lists of registration and lookup coincide and the identity
spelling is always registered. -/
theorem c10_register_find_consistent (m : List (String × String))
    (xml_id func_name : String) (h : xml_id ≠ "") :
    _find_handler (_register_logic_keys m xml_id func_name) xml_id =
      some func_name := by
  have hlook : plookup (_register_logic_keys m xml_id func_name) xml_id =
      some func_name := by
    apply plookup_register_foldl _ _ _ _ h
    left
    exact List.mem_cons_self _ _
  have hne : ¬ (_register_logic_keys m xml_id func_name).isEmpty = true := by
    intro hc
    rw [List.isEmpty_iff] at hc
    rw [hc] at hlook
    simp [plookup] at hlook
  unfold _find_handler
  rw [if_neg]
  · unfold _handler_key_candidates
    rw [if_neg h]
    simp only [firstHit, hlook]
  · intro hc
    rcases Bool.or_eq_true_iff.mp hc with hc | hc
    · exact hne hc
    · exact h (by simpa using hc)

/-- Witness for claim C10 at a concrete id and handler name. -/
theorem c10_register_find_consistent_witness :
    _find_handler (_register_logic_keys [] "btnLogin" "_onBtnLoginPressed")
      "btnLogin" = some "_onBtnLoginPressed" :=
  c10_register_find_consistent [] "btnLogin" "_onBtnLoginPressed" (by decide)

/-! ## Resource loading (resource_resolver.py lines 14-103)

The XML directory scans are abstracted at the granularity of the parsed
child elements: each values file contributes its `<color>/<string>/<dimen>`
children in order, files that fail to parse contribute nothing, and each
color-selector file contributes its name and item list.  The post-scan logic
is translated faithfully.  `_load_drawables` is not needed by any claim and
enters only through the `drawables` table itself. -/

/-- Element tag of one child of a values XML file. -/
inductive ResTag where
  | color
  | strTag
  | dimen
  | other
deriving DecidableEq

/-- One child element of a values file: tag, `name` attribute (the empty
string models an absent name, which the source skips) and raw text. -/
structure ResEntry where
  tag : ResTag
  name : String
  text : String
deriving DecidableEq

/-- One step of the per-child loop of `_load_values` (lines 28-46): each of
the three tables is filled only when the key is still absent. -/
def load_values_entry (t : ResourceResolver) (e : ResEntry) : ResourceResolver :=
  if e.name = "" then t
  else
    match e.tag with
    | .color =>
      if (plookup t.colors e.name).isNone then
        { t with colors := ainsert t.colors e.name (pyStrip e.text) }
      else t
    | .strTag =>
      if (plookup t.strings e.name).isNone then
        { t with strings := ainsert t.strings e.name (pyStrip e.text) }
      else t
    | .dimen =>
      if (plookup t.dimens e.name).isNone then
        { t with dimens := ainsert t.dimens e.name (pyStrip e.text) }
      else t
    | .other => t

/-- The element loop of `_load_values` over one values directory. -/
def load_values (t : ResourceResolver) (entries : List ResEntry) :
    ResourceResolver :=
  entries.foldl load_values_entry t

/-- One `item` element of a color-selector file: its checked-state attribute
and its color attribute, `none` when absent. -/
structure SelectorItem where
  state_checked : Option String
  color : Option String
deriving DecidableEq

/-- A selector file under the `color/` subdirectory: resource name derived
from the file name, and the selector's items.  Files that fail to parse or
whose root is not a selector contribute nothing and are omitted. -/
structure ColorFile where
  name : String
  items : List SelectorItem
deriving DecidableEq

/-- Embeds the default-item choice of `_load_color_resources`
(lines 77-86): the first item without a checked-state attribute wins, else
the first item. -/
def select_default_item (items : List SelectorItem) : Option SelectorItem :=
  match items.find? (fun it => it.state_checked.isNone) with
  | some it => some it
  | none => items.head?

/-- Embeds the per-file body of `_load_color_resources` (lines 88-101): the
chosen item's color attribute, with one level of `@color/` indirection
resolved against the current table, is written into the colors map without
any absence check. -/
def load_color_file (t : ResourceResolver) (f : ColorFile) : ResourceResolver :=
  match select_default_item f.items with
  | none => t
  | some it =>
    match it.color with
    | none => t
    | some ca =>
      if ca = "" then t
      else if startsWithStr ca "@color/" then
        match plookup t.colors (afterFirstSlash ca) with
        | some v => { t with colors := ainsert t.colors f.name v }
        | none => { t with colors := ainsert t.colors f.name ca }
      else { t with colors := ainsert t.colors f.name ca }

/-- The file loop of `_load_color_resources`. -/
def load_color_resources (t : ResourceResolver) (files : List ColorFile) :
    ResourceResolver :=
  files.foldl load_color_file t

/-- Embeds the full loading sequence run by `_load_values` on the main
values directory (lines 14-60): primary entries, then the `color/`
subdirectory, then the `values-night/` directory through the same fill-only
`_load_values` body. -/
def load_all (primary : List ResEntry) (colorFiles : List ColorFile)
    (night : List ResEntry) : ResourceResolver :=
  load_values
    (load_color_resources
      (load_values (ResourceResolver.mk [] [] [] []) primary) colorFiles)
    night

/-- Claim C3, counterexample: a color key set by the primary values load is
overwritten by a later color-selector file of the same name, because
`_load_color_resources` writes without the absence check. -/
theorem c3_counterexample :
    plookup (load_all [ResEntry.mk .color "red" "#111111"]
      [ColorFile.mk "red" [SelectorItem.mk none (some "#222222")]] []).colors
      "red" = some "#222222"
    ∧ plookup (load_all [ResEntry.mk .color "red" "#111111"]
      [ColorFile.mk "red" [SelectorItem.mk none (some "#222222")]] []).colors
      "red" ≠ some "#111111" := by
  refine ⟨by decide, by decide⟩

theorem load_values_entry_preserves (t : ResourceResolver) (e : ResEntry)
    (k v : String) :
    (plookup t.colors k = some v →
      plookup (load_values_entry t e).colors k = some v)
    ∧ (plookup t.strings k = some v →
      plookup (load_values_entry t e).strings k = some v)
    ∧ (plookup t.dimens k = some v →
      plookup (load_values_entry t e).dimens k = some v) := by
  by_cases hn : e.name = ""
  · simp [load_values_entry, hn]
  · by_cases hk : e.name = k
    · subst hk
      refine ⟨fun h => ?_, fun h => ?_, fun h => ?_⟩ <;>
        cases htag : e.tag <;>
        simp [load_values_entry, hn, htag, h] <;>
        (split <;> simp [h])
    · refine ⟨fun h => ?_, fun h => ?_, fun h => ?_⟩ <;>
        cases htag : e.tag <;>
        simp [load_values_entry, hn, htag, plookup_ainsert, hk, h] <;>
        split <;> simp [plookup_ainsert, hk, h]

/-- Claim C3 as amended: within the values loads (the primary directory and
the night-variant directory, both running the `_load_values` body) a key
once set is never overwritten — lower-priority values entries only fill
absent keys, for all three tables.  The color-selector subdirectory is the
exception: it writes colors unconditionally and can overwrite a
primary-directory value (see the counterexample). -/
theorem c3_amended (t : ResourceResolver) (entries : List ResEntry)
    (k v : String) :
    (plookup t.colors k = some v →
      plookup (load_values t entries).colors k = some v)
    ∧ (plookup t.strings k = some v →
      plookup (load_values t entries).strings k = some v)
    ∧ (plookup t.dimens k = some v →
      plookup (load_values t entries).dimens k = some v) := by
  induction entries generalizing t with
  | nil => exact ⟨id, id, id⟩
  | cons e es ih =>
    have hp := load_values_entry_preserves t e k v
    refine ⟨fun h => ?_, fun h => ?_, fun h => ?_⟩
    · exact (ih (load_values_entry t e)).1 (hp.1 h)
    · exact (ih (load_values_entry t e)).2.1 (hp.2.1 h)
    · exact (ih (load_values_entry t e)).2.2 (hp.2.2 h)

/-- Witness for the amended claim C3: a night-variant entry for an existing
key leaves the primary value in place. -/
theorem c3_amended_witness :
    plookup (load_values (ResourceResolver.mk [("red", "#111111")] [] [] [])
      [ResEntry.mk .color "red" "#333333"]).colors "red" = some "#111111" :=
  (c3_amended (ResourceResolver.mk [("red", "#111111")] [] [] [])
    [ResEntry.mk .color "red" "#333333"] "red" "#111111").1 (by decide)

/-! ## Markup tree (the node dicts built by src/parser/xml_parser.py)

A parsed node is its tag kind (the `type` key), the flat attribute dict and
the ordered children.  Comment and processing-instruction children are nodes
of kind `comment` / `pi` with empty attribute dicts, and the document
wrapper built by `parse_layout_xml` is a node of kind `document` with an
empty attribute dict, as in the source. -/

/-- Parsed markup node. -/
inductive XmlNode where
  | mk (kind : String) (attrs : List (String × String)) (children : List XmlNode)

/-- Tag kind of a node (the `type` dict key of the source). -/
def XmlNode.kind : XmlNode → String
  | .mk k _ _ => k

/-- Flat attribute dict of a node. -/
def XmlNode.attrs : XmlNode → List (String × String)
  | .mk _ a _ => a

/-- Ordered children of a node. -/
def XmlNode.children : XmlNode → List XmlNode
  | .mk _ _ c => c

mutual

/-- Pre-order listing of all nodes of a tree. -/
def nodes : XmlNode → List XmlNode
  | .mk k a cs => .mk k a cs :: nodesList cs

/-- Pre-order listing of all nodes of a forest. -/
def nodesList : List XmlNode → List XmlNode
  | [] => []
  | n :: ns => nodes n ++ nodesList ns

end

mutual

/-- Applies an attribute-dict transform to every node of a tree. -/
def mapAttrs (f : List (String × String) → List (String × String)) :
    XmlNode → XmlNode
  | .mk k a cs => .mk k (f a) (mapAttrsList f cs)

/-- Applies an attribute-dict transform to every node of a forest. -/
def mapAttrsList (f : List (String × String) → List (String × String)) :
    List XmlNode → List XmlNode
  | [] => []
  | n :: ns => mapAttrs f n :: mapAttrsList f ns

end

mutual

theorem nodes_mapAttrs
    (f : List (String × String) → List (String × String)) :
    ∀ n : XmlNode, nodes (mapAttrs f n) = (nodes n).map (mapAttrs f)
  | .mk k a cs => by
    simp [mapAttrs, nodes, nodesList_mapAttrsList f cs]

theorem nodesList_mapAttrsList
    (f : List (String × String) → List (String × String)) :
    ∀ ns : List XmlNode,
      nodesList (mapAttrsList f ns) = (nodesList ns).map (mapAttrs f)
  | [] => by simp [mapAttrsList, nodesList]
  | n :: ns => by
    simp [mapAttrsList, nodesList, nodes_mapAttrs f n,
      nodesList_mapAttrsList f ns]

end

theorem attrs_mapAttrs (f : List (String × String) → List (String × String))
    (n : XmlNode) : (mapAttrs f n).attrs = f n.attrs := by
  cases n
  rfl

/-! ## Cross-file background collection and merge
(src/translator/generator.py lines 65-117) -/

/-- Python `d.setdefault(k, v)` restricted to its effect on the map. -/
def setdefaultA (m : List (String × String)) (k v : String) :
    List (String × String) :=
  if (plookup m k).isSome then m else ainsert m k v

/-- Root rule of `_collect_backgrounds_from_ir` (lines 73-76): a truthy root
background is recorded under the sentinel key, first writer wins. -/
def collect_bg_root_rule (bg : List (String × String)) (n : XmlNode) :
    List (String × String) :=
  match plookup n.attrs "background" with
  | some v => if v = "" then bg else setdefaultA bg "__root__" v
  | none => bg

/-- Per-node rule of `_collect_backgrounds_from_ir` (lines 78-83): a truthy
background of an id-bearing node is recorded under the id's last slash
segment, first writer wins. -/
def collect_bg_id_rule (bg : List (String × String)) (n : XmlNode) :
    List (String × String) :=
  match plookup n.attrs "id" with
  | some rid =>
    if rid = "" then bg
    else
      match plookup n.attrs "background" with
      | some v => if v = "" then bg else setdefaultA bg (lastSplitSegment rid '/') v
      | none => bg
  | none => bg

mutual

/-- Embeds `_collect_backgrounds_from_ir` (generator.py lines 65-86). -/
def collect_backgrounds_from_ir :
    XmlNode → List (String × String) → Bool → List (String × String)
  | .mk k a cs, bg, isRoot =>
    let bg1 := if isRoot then collect_bg_root_rule bg (.mk k a cs) else bg
    let bg2 := collect_bg_id_rule bg1 (.mk k a cs)
    collect_backgrounds_list cs bg2

/-- Child loop of `_collect_backgrounds_from_ir`. -/
def collect_backgrounds_list :
    List XmlNode → List (String × String) → List (String × String)
  | [], bg => bg
  | n :: ns, bg => collect_backgrounds_list ns (collect_backgrounds_from_ir n bg false)

end

/-- Root update of `_merge_backgrounds_into_main` (generator.py lines
96-101).  Python's `attrs = main_ir.get("attrs") or {}` yields a fresh,
discarded dict when the stored dict is empty or missing, so the write is
lost in that case; the empty-dict guard models this. -/
def merge_root_attrs (bg attrs : List (String × String)) :
    List (String × String) :=
  if attrs = [] then attrs
  else if (plookup attrs "background").isNone then
    match plookup bg "__root__" with
    | some v => if v = "" then attrs else ainsert attrs "background" v
    | none => attrs
  else attrs

/-- Per-node update of the `_walk` of `_merge_backgrounds_into_main`
(generator.py lines 103-114): an id-bearing node without a background gains
the collected value for its id key.  Inside the walk a write requires an
`id`, hence a nonempty dict, so the fresh-dict subtlety of the root case
cannot occur here. -/
def merge_walk_attrs (bg attrs : List (String × String)) :
    List (String × String) :=
  match plookup attrs "id" with
  | some rid =>
    if rid = "" then attrs
    else
      match plookup bg (lastSplitSegment rid '/') with
      | some v =>
        if (plookup attrs "background").isNone then
          (if v = "" then attrs else ainsert attrs "background" v)
        else attrs
      | none => attrs
  | none => attrs

/-- Embeds `_merge_backgrounds_into_main` (generator.py lines 89-117) as a
pure tree transform: the root special case runs first, then the uniform walk
over every node, the root included.  The `applied` summary dict the source
additionally returns is not modelled. -/
def merge_backgrounds_into_main (main : XmlNode)
    (bg : List (String × String)) : XmlNode :=
  mapAttrs (merge_walk_attrs bg)
    (XmlNode.mk main.kind (merge_root_attrs bg main.attrs) main.children)

theorem merge_walk_attrs_of_some (bg attrs : List (String × String))
    (v : String) (h : plookup attrs "background" = some v) :
    merge_walk_attrs bg attrs = attrs := by
  unfold merge_walk_attrs
  cases hid : plookup attrs "id" with
  | none => rfl
  | some rid =>
    by_cases hr : rid = ""
    · simp [hr]
    · cases hk : plookup bg (lastSplitSegment rid '/') <;> simp [hr, h, hk]

theorem merge_walk_attrs_cases (bg attrs : List (String × String)) :
    merge_walk_attrs bg attrs = attrs ∨
    ∃ v rid, v ≠ "" ∧ plookup attrs "id" = some rid ∧
      plookup bg (lastSplitSegment rid '/') = some v ∧
      plookup attrs "background" = none ∧
      merge_walk_attrs bg attrs = ainsert attrs "background" v := by
  unfold merge_walk_attrs
  cases hid : plookup attrs "id" with
  | none => exact Or.inl rfl
  | some rid =>
    by_cases hr : rid = ""
    · left; simp [hr]
    · cases hk : plookup bg (lastSplitSegment rid '/') with
      | none => left; simp [hr, hk]
      | some v =>
        cases hb : plookup attrs "background" with
        | some w => left; simp [hr, hk, hb]
        | none =>
          by_cases hv : v = ""
          · left; simp [hr, hk, hb, hv]
          · right
            exact ⟨v, rid, hv, rfl, hk, rfl, by simp [hr, hk, hb, hv]⟩

theorem merge_root_attrs_of_some (bg attrs : List (String × String))
    (v : String) (h : plookup attrs "background" = some v) :
    merge_root_attrs bg attrs = attrs := by
  unfold merge_root_attrs
  by_cases ha : attrs = []
  · simp [ha]
  · simp [ha, h]

theorem merge_root_attrs_cases (bg attrs : List (String × String)) :
    merge_root_attrs bg attrs = attrs ∨
    ∃ v, v ≠ "" ∧ plookup bg "__root__" = some v ∧
      plookup attrs "background" = none ∧
      merge_root_attrs bg attrs = ainsert attrs "background" v := by
  unfold merge_root_attrs
  by_cases ha : attrs = []
  · left; simp [ha]
  · cases hb : plookup attrs "background" with
    | some w => left; simp [ha, hb]
    | none =>
      cases hk : plookup bg "__root__" with
      | none => left; simp [ha, hb]
      | some v =>
        by_cases hv : v = ""
        · left; simp [ha, hb, hv]
        · right
          exact ⟨v, hv, rfl, rfl, by simp [ha, hb, hv]⟩

theorem zip_map_self {α β : Type} (l : List α) (g : α → β) :
    l.zip (l.map g) = l.map (fun x => (x, g x)) := by
  induction l with
  | nil => rfl
  | cons x xs ih => simp [ih]

/-- Claim C7: after the merge, every node of the primary tree that already
declared a background keeps its attribute dict unchanged (the sibling value
is ignored entirely), and a node without a background either stays unchanged
or gains exactly one collected background value, keyed by the root sentinel
or by its own id. -/
theorem c7_merge_fill_only (main : XmlNode) (bg : List (String × String)) :
    (nodes (merge_backgrounds_into_main main bg)).length = (nodes main).length
    ∧ ∀ p ∈ (nodes main).zip (nodes (merge_backgrounds_into_main main bg)),
        (∀ v, plookup p.1.attrs "background" = some v → p.2.attrs = p.1.attrs)
        ∧ (plookup p.1.attrs "background" = none →
            p.2.attrs = p.1.attrs ∨
            ∃ v, v ≠ "" ∧ p.2.attrs = ainsert p.1.attrs "background" v ∧
              (plookup bg "__root__" = some v ∨
               ∃ rid, plookup p.1.attrs "id" = some rid ∧
                 plookup bg (lastSplitSegment rid '/') = some v)) := by
  obtain ⟨k, a, cs⟩ := main
  have hm : merge_backgrounds_into_main (XmlNode.mk k a cs) bg =
      mapAttrs (merge_walk_attrs bg)
        (XmlNode.mk k (merge_root_attrs bg a) cs) := rfl
  have hnodes : nodes (merge_backgrounds_into_main (XmlNode.mk k a cs) bg) =
      mapAttrs (merge_walk_attrs bg) (XmlNode.mk k (merge_root_attrs bg a) cs)
        :: (nodesList cs).map (mapAttrs (merge_walk_attrs bg)) := by
    rw [hm, nodes_mapAttrs]
    simp [nodes]
  constructor
  · rw [hnodes]
    simp [nodes]
  · intro p hp
    rw [hnodes] at hp
    have hsrc : nodes (XmlNode.mk k a cs) = XmlNode.mk k a cs :: nodesList cs := by
      simp [nodes]
    rw [hsrc] at hp
    rw [List.zip_cons_cons] at hp
    rcases List.mem_cons.mp hp with hp | hp
    · subst hp
      constructor
      · intro v hv
        have hv' : plookup a "background" = some v := hv
        show merge_walk_attrs bg (merge_root_attrs bg a) = a
        rw [merge_root_attrs_of_some bg a v hv',
          merge_walk_attrs_of_some bg a v hv']
      · intro hnone
        show merge_walk_attrs bg (merge_root_attrs bg a) = a ∨
          ∃ v, v ≠ "" ∧
            merge_walk_attrs bg (merge_root_attrs bg a) =
              ainsert a "background" v ∧
            (plookup bg "__root__" = some v ∨
             ∃ rid, plookup a "id" = some rid ∧
               plookup bg (lastSplitSegment rid '/') = some v)
        rcases merge_root_attrs_cases bg a with hroot | ⟨v, hv, hk2, _, hroot⟩
        · rw [hroot]
          rcases merge_walk_attrs_cases bg a with hw | ⟨v, rid, hv, hid, hkey, _, hw⟩
          · exact Or.inl hw
          · exact Or.inr ⟨v, hv, hw, Or.inr ⟨rid, hid, hkey⟩⟩
        · rw [hroot]
          have hbset : plookup (ainsert a "background" v) "background" = some v := by
            rw [plookup_ainsert]; simp
          rw [merge_walk_attrs_of_some bg _ v hbset]
          exact Or.inr ⟨v, hv, rfl, Or.inl hk2⟩
    · rw [zip_map_self] at hp
      rcases List.mem_map.mp hp with ⟨x, _, hx⟩
      subst hx
      constructor
      · intro v hv
        have hv' : plookup x.attrs "background" = some v := hv
        show (mapAttrs (merge_walk_attrs bg) x).attrs = x.attrs
        rw [attrs_mapAttrs]
        exact merge_walk_attrs_of_some bg x.attrs v hv'
      · intro hnone
        show (mapAttrs (merge_walk_attrs bg) x).attrs = x.attrs ∨
          ∃ v, v ≠ "" ∧
            (mapAttrs (merge_walk_attrs bg) x).attrs =
              ainsert x.attrs "background" v ∧
            (plookup bg "__root__" = some v ∨
             ∃ rid, plookup x.attrs "id" = some rid ∧
               plookup bg (lastSplitSegment rid '/') = some v)
        rw [attrs_mapAttrs]
        rcases merge_walk_attrs_cases bg x.attrs with hw | ⟨v, rid, hv, hid, hkey, _, hw⟩
        · exact Or.inl hw
        · exact Or.inr ⟨v, hv, hw, Or.inr ⟨rid, hid, hkey⟩⟩

/-- Concrete primary tree for the C7 witness: the root already declares a
background, as in the second half of the spec's Scenario E. -/
def c7main : XmlNode :=
  XmlNode.mk "LinearLayout" [("background", "#FF0000")]
    [XmlNode.mk "TextView" [("id", "@+id/title")] []]

/-- Concrete collected background map for the C7 witness. -/
def c7bg : List (String × String) :=
  [("__root__", "@color/red"), ("title", "@color/blue")]

/-- Witness for claim C7: with the root already declaring a background, the
merged root keeps its attribute dict unchanged. -/
theorem c7_merge_fill_only_witness :
    (merge_backgrounds_into_main c7main c7bg).attrs = c7main.attrs :=
  ((c7_merge_fill_only c7main c7bg).2
    (c7main, merge_backgrounds_into_main c7main c7bg)
    (List.mem_cons_self _ _)).1 "#FF0000" (by decide)

/-! ## Java mini-AST and click-handler extraction
(src/parser/java_parser.py)

The regex scans over a companion source file are embedded at the granularity
of their match results: `_collect_var_to_id` receives the `(variable, id)`
pairs matched by its `findViewById` pattern, and the handler pass receives
the `setOnClickListener` call sites, each carrying the matched target
expression, the optional inline `R.id` literal, the unwrapped body text and
the mini-AST that `_parse_block_to_ast` builds from it (the string-to-AST
step is regex-driven and enters the model pre-parsed).  All decision logic
after the matches is translated faithfully. -/

/-- The mini AST of java_parser.py: `MethodCall`, `IfStmt`, `RawStmt`; a
`Block` is a statement list. -/
inductive AstNode where
  | methodCall (target : Option String) (args : String)
  | ifStmt (condition : String) (thenBlock : List AstNode)
      (elseBlock : Option (List AstNode))
  | rawStmt (text : String)

/-- A `Block` of the mini AST. -/
abbrev Block := List AstNode

/-- Embeds the dataclass `ClickHandlerIR`. -/
structure ClickHandlerIR where
  name : String
  view_ids : List String
  java_src : String
  ast : Block

/-- One `setOnClickListener` call site as matched by the registration regex
of `_extract_handlers_from_src` (java_parser.py lines 207-221). -/
structure CallSite where
  target_expr : String
  inline_id : Option String
  body_src : String
  ast : Block

/-- Embeds `_collect_var_to_id` (java_parser.py lines 155-177): only
bindings to ids of the known-id set are retained. -/
def _collect_var_to_id (ms : List (String × String)) (id_set : List String) :
    List (String × String) :=
  ms.foldl (fun m p => if p.2 ∈ id_set then ainsert m p.1 p.2 else m) []

/-- Fallback target resolution of a call site (java_parser.py lines
227-231): the last dot segment of the part before the first parenthesis,
looked up in the variable-to-id map. -/
def resolve_via_var (site : CallSite) (var2id : List (String × String)) :
    List String :=
  match plookup var2id (lastSplitSegment (headSplitSegment site.target_expr '(') '.') with
  | some vid => [vid]
  | none => []

/-- Embeds the target-id resolution of `_extract_handlers_from_src`
(java_parser.py lines 223-231): a truthy inline id that is a known id wins,
otherwise the variable fallback. -/
def resolve_site_ids (site : CallSite) (var2id : List (String × String))
    (id_set : List String) : List String :=
  match site.inline_id with
  | some i =>
    if i ≠ "" ∧ i ∈ id_set then [i] else resolve_via_var site var2id
  | none => resolve_via_var site var2id

/-- Call-site loop of `_extract_handlers_from_src` (java_parser.py lines
217-250): unresolvable sites are skipped entirely and the positional name
counter advances only on kept sites. -/
def _extract_handlers_go (var2id : List (String × String))
    (id_set : List String) : List CallSite → Nat → List ClickHandlerIR
  | [], _ => []
  | s :: rest, idx =>
    let vids := resolve_site_ids s var2id id_set
    if vids.isEmpty then _extract_handlers_go var2id id_set rest idx
    else
      ClickHandlerIR.mk ("_on_click_" ++ toString idx) vids (pyStrip s.body_src)
          s.ast
        :: _extract_handlers_go var2id id_set rest (idx + 1)

/-- Embeds `_extract_handlers_from_src` (java_parser.py lines 201-250). -/
def _extract_handlers_from_src (sites : List CallSite)
    (var2id : List (String × String)) (id_set : List String) :
    List ClickHandlerIR :=
  _extract_handlers_go var2id id_set sites 0

/-- One companion source file: the match results of the binding pass and of
the registration pass. -/
structure JavaFile where
  var_matches : List (String × String)
  click_sites : List CallSite

/-- Inner insertion of `extract_click_handlers` (java_parser.py lines
272-274): a handler is registered for a view id only when the id is not
already mapped. -/
def insert_handler_id (h : ClickHandlerIR)
    (hmap : List (String × ClickHandlerIR)) (vid : String) :
    List (String × ClickHandlerIR) :=
  if (plookup hmap vid).isNone then hmap ++ [(vid, h)] else hmap

/-- Registration of one extracted handler under all its view ids. -/
def insert_handler (hmap : List (String × ClickHandlerIR))
    (h : ClickHandlerIR) : List (String × ClickHandlerIR) :=
  h.view_ids.foldl (insert_handler_id h) hmap

/-- Per-file body of `extract_click_handlers` (java_parser.py lines
267-274). -/
def insert_file (xml_ids : List String)
    (hmap : List (String × ClickHandlerIR)) (jf : JavaFile) :
    List (String × ClickHandlerIR) :=
  (_extract_handlers_from_src jf.click_sites
      (_collect_var_to_id jf.var_matches xml_ids) xml_ids).foldl
    insert_handler hmap

/-- Embeds `extract_click_handlers` (java_parser.py lines 253-276): the
directory scan enters as the file list, in traversal order. -/
def extract_click_handlers (files : List JavaFile) (xml_ids : List String) :
    List (String × ClickHandlerIR) :=
  files.foldl (insert_file xml_ids) []

theorem not_mem_keys_of_plookup_none {α : Type} (m : List (String × α))
    (k : String) (h : plookup m k = none) : k ∉ m.map Prod.fst := by
  induction m with
  | nil => simp
  | cons p rest ih =>
    obtain ⟨k', v'⟩ := p
    by_cases hk : k' = k
    · simp [plookup, hk] at h
    · simp only [plookup, if_neg hk] at h
      simp only [List.map_cons, List.mem_cons]
      rintro (rfl | hmem)
      · exact hk rfl
      · exact ih h hmem

theorem var2id_invariant (ms : List (String × String)) (id_set : List String) :
    ∀ v i, plookup (_collect_var_to_id ms id_set) v = some i → i ∈ id_set := by
  unfold _collect_var_to_id
  suffices hgen : ∀ (m : List (String × String)),
      (∀ v i, plookup m v = some i → i ∈ id_set) →
      ∀ v i, plookup (ms.foldl
        (fun m p => if p.2 ∈ id_set then ainsert m p.1 p.2 else m) m) v = some i →
        i ∈ id_set by
    exact hgen [] (by intro v i h; simp [plookup] at h)
  induction ms with
  | nil => intro m hm; simpa using hm
  | cons p rest ih =>
    intro m hm v i h
    refine ih _ ?_ v i h
    intro v' i' h'
    simp only [] at h'
    by_cases hp : p.2 ∈ id_set
    · rw [if_pos hp, plookup_ainsert] at h'
      by_cases hv : p.1 = v'
      · rw [if_pos hv] at h'
        cases h'
        exact hp
      · rw [if_neg hv] at h'
        exact hm v' i' h'
    · rw [if_neg hp] at h'
      exact hm v' i' h'

theorem resolve_site_ids_subset (site : CallSite)
    (var2id : List (String × String)) (id_set : List String)
    (hvar : ∀ v i, plookup var2id v = some i → i ∈ id_set) :
    ∀ x ∈ resolve_site_ids site var2id id_set, x ∈ id_set := by
  intro x hx
  have hviavar : ∀ y ∈ resolve_via_var site var2id, y ∈ id_set := by
    intro y hy
    unfold resolve_via_var at hy
    cases hlk : plookup var2id
        (lastSplitSegment (headSplitSegment site.target_expr '(') '.') with
    | none => rw [hlk] at hy; simp at hy
    | some vid =>
      rw [hlk] at hy
      simp at hy
      subst hy
      exact hvar _ _ hlk
  cases hinl : site.inline_id with
  | none =>
    simp only [resolve_site_ids, hinl] at hx
    exact hviavar x hx
  | some i =>
    simp only [resolve_site_ids, hinl] at hx
    by_cases hc : i ≠ "" ∧ i ∈ id_set
    · rw [if_pos hc] at hx
      simp at hx
      subst hx
      exact hc.2
    · rw [if_neg hc] at hx
      exact hviavar x hx

theorem extract_handlers_go_sound (var2id : List (String × String))
    (id_set : List String)
    (hvar : ∀ v i, plookup var2id v = some i → i ∈ id_set) :
    ∀ (sites : List CallSite) (idx : Nat),
      ∀ h ∈ _extract_handlers_go var2id id_set sites idx,
        h.view_ids ≠ [] ∧ ∀ x ∈ h.view_ids, x ∈ id_set := by
  intro sites
  induction sites with
  | nil => intro idx h hh; simp [_extract_handlers_go] at hh
  | cons s rest ih =>
    intro idx h hh
    unfold _extract_handlers_go at hh
    by_cases he : (resolve_site_ids s var2id id_set).isEmpty
    · rw [if_pos he] at hh
      exact ih idx h hh
    · rw [if_neg he] at hh
      rcases List.mem_cons.mp hh with rfl | hh
      · refine ⟨?_, ?_⟩
        · intro hc
          apply he
          show (resolve_site_ids s var2id id_set).isEmpty = true
          rw [show resolve_site_ids s var2id id_set = [] from hc]
          rfl
        · intro x hx
          exact resolve_site_ids_subset s var2id id_set hvar x hx
      · exact ih (idx + 1) h hh

theorem extract_handlers_go_length (var2id : List (String × String))
    (id_set : List String) :
    ∀ (sites : List CallSite) (idx : Nat),
      (_extract_handlers_go var2id id_set sites idx).length =
        (sites.filter
          (fun s => !(resolve_site_ids s var2id id_set).isEmpty)).length := by
  intro sites
  induction sites with
  | nil => intro idx; rfl
  | cons s rest ih =>
    intro idx
    unfold _extract_handlers_go
    by_cases he : (resolve_site_ids s var2id id_set).isEmpty
    · rw [if_pos he]
      simp [List.filter_cons, he, ih idx]
    · rw [if_neg he]
      have he' : (!(resolve_site_ids s var2id id_set).isEmpty) = true := by
        simpa using he
      simp [List.filter_cons, he', ih (idx + 1)]

/-- Invariant of the handler map built by `extract_click_handlers`: distinct
keys, all of them known markup ids. -/
def KeysOK (xml_ids : List String) (m : List (String × ClickHandlerIR)) : Prop :=
  (m.map Prod.fst).Nodup ∧ ∀ k ∈ m.map Prod.fst, k ∈ xml_ids

theorem insert_handler_id_keysOK (h : ClickHandlerIR) (xml_ids : List String)
    (m : List (String × ClickHandlerIR)) (vid : String)
    (hvid : vid ∈ xml_ids) (hm : KeysOK xml_ids m) :
    KeysOK xml_ids (insert_handler_id h m vid) := by
  unfold insert_handler_id
  by_cases hn : (plookup m vid).isNone
  · rw [if_pos hn]
    have hnomem : vid ∉ m.map Prod.fst :=
      not_mem_keys_of_plookup_none m vid (Option.isNone_iff_eq_none.mp hn)
    constructor
    · rw [List.map_append]
      simp only [List.map_cons, List.map_nil]
      rw [List.nodup_append]
      refine ⟨hm.1, List.nodup_singleton vid, ?_⟩
      intro a ha hb
      simp only [List.mem_singleton] at hb
      subst hb
      exact hnomem ha
    · intro k hk
      rw [List.map_append] at hk
      rcases List.mem_append.mp hk with hk | hk
      · exact hm.2 k hk
      · simp at hk
        subst hk
        exact hvid
  · rw [if_neg hn]
    exact hm

theorem insert_handler_keysOK (xml_ids : List String) (h : ClickHandlerIR)
    (hsub : ∀ x ∈ h.view_ids, x ∈ xml_ids) :
    ∀ (m : List (String × ClickHandlerIR)), KeysOK xml_ids m →
      KeysOK xml_ids (insert_handler m h) := by
  unfold insert_handler
  suffices hgen : ∀ (l : List String), (∀ x ∈ l, x ∈ xml_ids) →
      ∀ m, KeysOK xml_ids m → KeysOK xml_ids (l.foldl (insert_handler_id h) m) by
    intro m hm
    exact hgen h.view_ids hsub m hm
  intro l
  induction l with
  | nil => intro _ m hm; simpa using hm
  | cons x xs ih =>
    intro hl m hm
    simp only [List.foldl_cons]
    exact ih (fun y hy => hl y (List.mem_cons_of_mem x hy)) _
      (insert_handler_id_keysOK h xml_ids m x (hl x (List.mem_cons_self x xs)) hm)

theorem foldl_insert_handler_keysOK (xml_ids : List String) :
    ∀ (hs : List ClickHandlerIR),
      (∀ h ∈ hs, ∀ x ∈ h.view_ids, x ∈ xml_ids) →
      ∀ m, KeysOK xml_ids m → KeysOK xml_ids (hs.foldl insert_handler m) := by
  intro hs
  induction hs with
  | nil => intro _ m hm; simpa using hm
  | cons h hs ih =>
    intro hsub m hm
    simp only [List.foldl_cons]
    refine ih (fun h' hh' => hsub h' (List.mem_cons_of_mem h hh')) _ ?_
    exact insert_handler_keysOK xml_ids h
      (hsub h (List.mem_cons_self h hs)) m hm

theorem insert_file_keysOK (xml_ids : List String) (jf : JavaFile)
    (m : List (String × ClickHandlerIR)) (hm : KeysOK xml_ids m) :
    KeysOK xml_ids (insert_file xml_ids m jf) := by
  unfold insert_file _extract_handlers_from_src
  have hvar := var2id_invariant jf.var_matches xml_ids
  have hsound := extract_handlers_go_sound
    (_collect_var_to_id jf.var_matches xml_ids) xml_ids hvar jf.click_sites 0
  exact foldl_insert_handler_keysOK xml_ids _
    (fun h hh => (hsound h hh).2) m hm

/-- Claim C1: a call site whose target resolves to no known markup id yields
no handler (the extracted-handler count equals the resolvable-site count),
and the handler map of `extract_click_handlers` has pairwise-distinct keys
drawn from the known markup ids, so its size is bounded by the number of
distinct markup ids, never by the number of call sites. -/
theorem c1_unresolvable_sites_discarded (files : List JavaFile)
    (xml_ids : List String) :
    (∀ (sites : List CallSite) (var2id : List (String × String)),
      (_extract_handlers_from_src sites var2id xml_ids).length =
        (sites.filter
          (fun s => !(resolve_site_ids s var2id xml_ids).isEmpty)).length)
    ∧ ((extract_click_handlers files xml_ids).map Prod.fst).Nodup
    ∧ (∀ k ∈ (extract_click_handlers files xml_ids).map Prod.fst, k ∈ xml_ids)
    ∧ (extract_click_handlers files xml_ids).length ≤ xml_ids.dedup.length := by
  have hkeys : KeysOK xml_ids (extract_click_handlers files xml_ids) := by
    unfold extract_click_handlers
    suffices hgen : ∀ m, KeysOK xml_ids m →
        KeysOK xml_ids (files.foldl (insert_file xml_ids) m) by
      exact hgen [] ⟨List.nodup_nil, by simp⟩
    induction files with
    | nil => intro m hm; simpa using hm
    | cons jf fs ih =>
      intro m hm
      simp only [List.foldl_cons]
      exact ih _ (insert_file_keysOK xml_ids jf m hm)
  refine ⟨?_, hkeys.1, hkeys.2, ?_⟩
  · intro sites var2id
    exact extract_handlers_go_length var2id xml_ids sites 0
  · have hlen : (extract_click_handlers files xml_ids).length =
        ((extract_click_handlers files xml_ids).map Prod.fst).length := by
      rw [List.length_map]
    rw [hlen]
    have hcard : ((extract_click_handlers files xml_ids).map Prod.fst).toFinset.card =
        ((extract_click_handlers files xml_ids).map Prod.fst).length :=
      List.toFinset_card_of_nodup hkeys.1
    rw [← hcard, ← List.card_toFinset]
    apply Finset.card_le_card
    intro x hx
    rw [List.mem_toFinset] at hx ⊢
    exact hkeys.2 x hx

/-! ## Further string utilities for the translator -/

/-- Python `s.endswith(suf)`. -/
def endsWithStr (s suf : String) : Bool := suf.data.isSuffixOf s.data

/-- First character upper-cased, rest unchanged: Python
`s[:1].upper() + s[1:]`. -/
def upperFirst (s : String) : String :=
  match s.data with
  | [] => ""
  | c :: rest => String.mk (c.toUpper :: rest)

/-- Python `s.replace("dp", "")`: removes every (non-overlapping,
left-to-right) occurrence of `dp`. -/
def removeDp : List Char → List Char
  | [] => []
  | 'd' :: 'p' :: rest => removeDp rest
  | x :: rest => x :: removeDp rest

/-- Embeds `utils.escape_dart` (utils.py lines 17-27): the four sequential
replaces amount to this single pass. -/
def escape_dart (s : String) : String :=
  String.mk (s.data.flatMap (fun c =>
    if c = '\\' then ['\\', '\\']
    else if c = '"' then ['\\', '"']
    else if c = '\n' then ['\\', 'n']
    else if c = '\r' then ['\\', 'r']
    else [c]))

/-- Python `str.splitlines()` for strings whose only terminator is `\n`. -/
def pySplitlines (s : String) : List String :=
  if s = "" then []
  else
    let parts := (splitOnChar '\n' s.data).map String.mk
    if parts.getLast? = some "" then parts.dropLast else parts

/-- Embeds `utils.indent` / `generator._indent`: pads each nonblank line. -/
def indentStr (code : String) (spaces : Nat) : String :=
  String.intercalate "\n" ((pySplitlines code).map (fun line =>
    if pyStrip line = "" then line
    else String.mk (List.replicate spaces ' ') ++ line))

/-- Number of positions at which `pat` occurs in `hay`. -/
def substrCount (hay pat : String) : Nat :=
  (hay.data.tails.filter (fun t => pat.data.isPrefixOf t)).length

/-- First match of the regex `["\']([^"\']+)["\']`: the earliest nonempty
run between two quote characters. -/
def firstQuoted : List Char → Option String
  | [] => none
  | c :: rest =>
    if c = '"' || c = '\'' then
      let body := rest.takeWhile (fun d => d != '"' && d != '\'')
      let after := rest.drop body.length
      if body ≠ [] ∧ after ≠ [] then some (String.mk body)
      else firstQuoted rest
    else firstQuoted rest

/-- Rendering of a Python float together with its truthiness, for the values
produced by the dimension parsers.  The embedded code paths only parse and
format floats, so a float enters the model as its two renderings
(`str(x)` and `f"{x:.1f}"`) plus its truthiness (false exactly at 0.0). -/
structure PyF where
  rendering : String
  fmt1 : String
  truthy : Bool

/-- Machine-float and file-system oracles threaded through the translation
rules: `parseDimen` models `utils._parse_dimen(value, resolver)` (resolver
lookup, float parse, numeral-prefix regex fallback), `parseDimenToPx`
models the static `ResourceResolver.parse_dimen_to_px`, and
`shapeDecoration` models `_parse_shape_drawable_to_boxdecoration(path,
resolver)` (a file read plus XML shape parse, including its grey fallback
renderings). -/
structure Fs where
  parseDimen : Option ResourceResolver → String → Option PyF
  parseDimenToPx : String → Option PyF
  shapeDecoration : String → Option String

/-- The oracle record used by closed (witness/counterexample) statements:
every oracle answers nothing. -/
def fsNone : Fs :=
  Fs.mk (fun _ _ => none) (fun _ => none) (fun _ => none)

/-! ## Statement lowering (src/translator/generator.py lines 205-313)

`_extract_activity_class_from_intent` is a pure regex capture over the
argument text followed by a name mangling; the capture group enters as the
oracle `cap`, the mangling is embedded. -/

/-- Embeds `_extract_activity_class_from_intent` (generator.py lines
205-222) with the regex capture as the `cap` oracle. -/
def _extract_activity_class_from_intent (cap : String → Option String)
    (args : String) : Option String :=
  match cap args with
  | some activity_name =>
    if endsWithStr activity_name "Activity" then
      some ("Converted"
        ++ String.mk (activity_name.data.take (activity_name.data.length - 8)))
    else some ("Converted" ++ activity_name)
  | none => none

/-- Regex `^\w+$`. -/
def isWordOnly (t : String) : Bool := !t.data.isEmpty && t.data.all isWordChar

/-- Regex `^\w+\+\+$` or `^\w+--$`. -/
def matchIncDec (t : String) : Bool :=
  (endsWithStr t "++" || endsWithStr t "--")
    && !(t.data.dropLast.dropLast).isEmpty
    && (t.data.dropLast.dropLast).all isWordChar

/-- Embeds the `MethodCall` arm of `_java_ast_block_to_dart`
(generator.py lines 230-313), a priority chain of string tests. -/
def methodCallToDart (cap : String → Option String) (target0 : Option String)
    (args0 : String) : List String :=
  let target := target0.getD ""
  let args := pyStrip args0
  if matchIncDec target then
    let var_name := pyRstrip target (fun c => c = '+' || c = '-')
    if var_name = "refreshKeys" then []
    else
      let op := if containsStr target "++" then "++" else "--"
      ["setState(() \x7b " ++ var_name ++ op ++ "; \x7d);"]
  else if startsWithStr target "if" && containsStr target "isTaskRoot" then
    if containsStr args "startActivity" && containsStr args "new Intent" then
      match _extract_activity_class_from_intent cap args with
      | some ac =>
        ["if (!Navigator.canPop(context)) \x7b",
         "  Navigator.push(context, MaterialPageRoute(builder: (_) => const "
           ++ ac ++ "()));",
         "\x7d"]
      | none => []
    else []
  else if containsStr target "startActivity" then
    match _extract_activity_class_from_intent cap args with
    | some ac =>
      ["Navigator.push(context, MaterialPageRoute(builder: (_) => " ++ ac
        ++ "()));"]
    | none => []
  else if containsStr target "finish" && args = "" then
    ["Navigator.maybePop(context);"]
  else if containsStr target "finishAffinity" then
    ["Navigator.popUntil(context, (route) => route.isFirst);"]
  else if containsStr target "Toast.makeText" then
    let msg := (firstQuoted args.data).getD "TODO: port Toast"
    ["ScaffoldMessenger.of(context).showSnackBar(SnackBar(content: Text('"
      ++ msg ++ "')));"]
  else if isWordOnly target && args.isEmpty then
    if target = "refreshKeys" then []
    else ["setState(() \x7b _" ++ target ++ "(); \x7d);"]
  else if isWordOnly target && !args.isEmpty then
    let clean_args := pyStrip (pyRstrip args (fun c => c = ';'))
    let clean_args :=
      if startsWithStr clean_args "\"" && endsWithStr clean_args "\"" then
        "'" ++ String.mk ((clean_args.data.drop 1).dropLast) ++ "'"
      else clean_args
    ["setState(() \x7b _" ++ target ++ "(" ++ clean_args ++ "); \x7d);"]
  else []

/-- Embeds `_java_ast_block_to_dart` (generator.py lines 225-767) for
blocks of `MethodCall` statements, the arm the claims exercise.  The
`IfStmt` and `RawStmt` arms (lines 314-765) are a long chain of regex
fallbacks outside the scope of every claim: a block containing such a
statement lowers to `none`, and no theorem relies on their output.  The
`known_imports` accumulation feeds only the template options of the
excluded rendering layer and is not modelled. -/
def _java_ast_block_to_dart (cap : String → Option String) :
    Block → Option (List String)
  | [] => some []
  | .methodCall target args :: rest =>
    match _java_ast_block_to_dart cap rest with
    | some ls => some (methodCallToDart cap target args ++ ls)
    | none => none
  | .ifStmt _ _ _ :: _ => none
  | .rawStmt _ :: _ => none

/-- Concrete companion file for the C1 witness: one resolvable call site
(via the binding map) and one unresolvable call site. -/
def c1file : JavaFile :=
  JavaFile.mk [("btn", "submit")]
    [CallSite.mk "btn" none "finish();" [],
     CallSite.mk "ghost" none "finish();" []]

/-- Witness for claim C1: on the concrete file, the resolvable-id membership
hypothesis is discharged and the per-site count equality is instantiated. -/
theorem c1_unresolvable_sites_discarded_witness :
    "submit" ∈ ["submit", "cancel"]
    ∧ (_extract_handlers_from_src c1file.click_sites
        (_collect_var_to_id c1file.var_matches ["submit", "cancel"])
        ["submit", "cancel"]).length =
      (c1file.click_sites.filter
        (fun s => !(resolve_site_ids s
          (_collect_var_to_id c1file.var_matches ["submit", "cancel"])
          ["submit", "cancel"]).isEmpty)).length :=
  ⟨(c1_unresolvable_sites_discarded [c1file] ["submit", "cancel"]).2.2.1
      "submit" (by decide),
   (c1_unresolvable_sites_discarded [c1file] ["submit", "cancel"]).1
      c1file.click_sites
      (_collect_var_to_id c1file.var_matches ["submit", "cancel"])⟩

/-! ## Common modifier pipeline (src/utils.py lines 57-359) -/

/-- One directional-suffix step of `_edge_insets_from_attrs`: a truthy
attribute whose dimension parses overrides the side and sets the found
flag. -/
def eiSide (fs : Fs) (rz : Option ResourceResolver)
    (attrs : List (String × String)) (key : String) (cur : String)
    (found : Bool) : String × Bool :=
  match plookup attrs key with
  | some v =>
    if v = "" then (cur, found)
    else
      match fs.parseDimen rz v with
      | some f => (f.rendering, true)
      | none => (cur, found)
  | none => (cur, found)

/-- Embeds `_edge_insets_from_attrs` (utils.py lines 57-117): base value
(only when truthy as a float) then per-side overrides, rendered as
`EdgeInsets.fromLTRB`. -/
def _edge_insets_from_attrs (fs : Fs) (rz : Option ResourceResolver)
    (attrs : List (String × String)) (pre : String) : Option String :=
  let z := "0.0"
  let base : String × String × String × String × Bool :=
    match plookup attrs pre with
    | some bv =>
      if bv = "" then (z, z, z, z, false)
      else
        match fs.parseDimen rz bv with
        | some f =>
          if f.truthy then (f.rendering, f.rendering, f.rendering, f.rendering, true)
          else (z, z, z, z, false)
        | none => (z, z, z, z, false)
    | none => (z, z, z, z, false)
  let (l, t, r, b, found) := base
  let (l, found) := eiSide fs rz attrs (pre ++ "Left") l found
  let (l, found) := eiSide fs rz attrs (pre ++ "Start") l found
  let (t, found) := eiSide fs rz attrs (pre ++ "Top") t found
  let (r, found) := eiSide fs rz attrs (pre ++ "Right") r found
  let (r, found) := eiSide fs rz attrs (pre ++ "End") r found
  let (b, found) := eiSide fs rz attrs (pre ++ "Bottom") b found
  if found then
    some ("EdgeInsets.fromLTRB(" ++ l ++ ", " ++ t ++ ", " ++ r ++ ", " ++ b ++ ")")
  else none

/-- Embeds `get_asset_path_from_drawable` (utils.py lines 120-130). -/
def get_asset_path_from_drawable (p : String) : Option String :=
  if p = "" then none
  else some ("assets/images/" ++ lastSplitSegment p '/')

/-- Embeds `apply_layout_modifiers` (utils.py lines 268-359): background
wrapper (shape decoration, raster image or solid color), then inner padding,
then outer margin. -/
def apply_layout_modifiers (fs : Fs) (widget : String)
    (attrs : List (String × String)) (rz : Option ResourceResolver) : String :=
  let w1 :=
    match plookup attrs "background" with
    | some bg =>
      if bg = "" then widget
      else
        let dp :=
          match rz with
          | some r => r.resolve_drawable_path bg
          | none => none
        match dp with
        | some path =>
          if endsWithStr (pyLower path) ".xml" then
            match fs.shapeDecoration path with
            | some dec =>
              "Container(decoration: " ++ dec ++ ", child: " ++ widget ++ ")"
            | none =>
              "Container(decoration: BoxDecoration(color: Colors.grey.shade200), child: "
                ++ widget ++ ")"
          else
            match get_asset_path_from_drawable path with
            | some ap =>
              "Container(decoration: BoxDecoration(image: DecorationImage(image: AssetImage('"
                ++ ap ++ "'), fit: BoxFit.cover)), child: " ++ widget ++ ")"
            | none => "/* TODO: background image " ++ bg ++ " */ " ++ widget
        | none =>
          let resolved :=
            match rz with
            | some r => (fun x => if x = "" then bg else x) (r.resolve bg)
            | none => bg
          match android_color_to_flutter resolved with
          | some hex =>
            "Container(color: Color(" ++ hex ++ "), child: " ++ widget ++ ")"
          | none => "/* TODO: background " ++ bg ++ " */ " ++ widget
    | none => widget
  let w2 :=
    match _edge_insets_from_attrs fs rz attrs "padding" with
    | some ei => "Padding(padding: " ++ ei ++ ", child: " ++ w1 ++ ")"
    | none => w1
  match _edge_insets_from_attrs fs rz attrs "layout_margin" with
  | some ei => "Padding(padding: " ++ ei ++ ", child: " ++ w2 ++ ")"
  | none => w2

/-! ## Leaf widget rules (src/translator/view_rules.py) -/

/-- Embeds `_id_base` (view_rules.py lines 5-8). -/
def _id_base (v : String) : String :=
  if v = "" then "" else lastSplitSegment v '/'

/-- Embeds `_text_style` (view_rules.py lines 53-88).  When a resolver is
present the computed size is discarded — the `fontSize` append sits only in
the no-resolver branch of the source — so only `textColor` can contribute
then. -/
def _text_style (fs : Fs) (attrs : List (String × String))
    (rz : Option ResourceResolver) : String :=
  let parts : List String := []
  let parts :=
    match plookup attrs "textSize" with
    | some sraw =>
      if sraw = "" then parts
      else
        match rz with
        | some _ => parts
        | none =>
          match fs.parseDimenToPx sraw with
          | some f => if f.truthy then parts ++ ["fontSize: " ++ f.fmt1] else parts
          | none => parts
    | none => parts
  let parts :=
    match plookup attrs "textColor" with
    | some craw =>
      if craw = "" then parts
      else
        let resolved :=
          match rz with
          | some r => (fun x => if x = "" then craw else x) (r.resolve craw)
          | none => craw
        match android_color_to_flutter resolved with
        | some hex => parts ++ ["color: Color(" ++ hex ++ ")"]
        | none => parts
    | none => parts
  if parts.isEmpty then ""
  else ", style: TextStyle(" ++ String.intercalate ", " parts ++ ")"

/-- Python `attrs.get(a) or attrs.get(b)` collapsed to a string (the empty
string standing for a falsy result). -/
def getOr2 (attrs : List (String × String)) (a b : String) : String :=
  let x := (plookup attrs a).getD ""
  if x ≠ "" then x else (plookup attrs b).getD ""

/-- Embeds the `Button` branch of `translate_view` (view_rules.py lines
257-336): label and colors resolved, handler name from the `onClick`
attribute, else from the logic map, else derived from the id. -/
def translate_button_body (attrs : List (String × String))
    (rz : Option ResourceResolver) (logic_map : List (String × String)) :
    String :=
  let xml_id := _id_base ((plookup attrs "id").getD "")
  let label_raw := (plookup attrs "text").getD ""
  let label0 :=
    match rz with
    | some r => r.resolve label_raw
    | none => label_raw
  let label := if label0 = "" then "Button" else label0
  let text_style_part :=
    match plookup attrs "textColor" with
    | some tc =>
      if tc = "" then ""
      else
        let resolved :=
          match rz with
          | some r => (fun x => if x = "" then tc else x) (r.resolve tc)
          | none => tc
        match android_color_to_flutter resolved with
        | some hex => ", style: TextStyle(color: Color(" ++ hex ++ "))"
        | none => ""
    | none => ""
  let label_widget := "Text(\"" ++ escape_dart label ++ "\"" ++ text_style_part ++ ")"
  let bg_raw := getOr2 attrs "backgroundTint" "background"
  let style_part0 :=
    if bg_raw = "" then ""
    else
      let resolved :=
        match rz with
        | some r => (fun x => if x = "" then bg_raw else x) (r.resolve bg_raw)
        | none => bg_raw
      match android_color_to_flutter resolved with
      | some hex =>
        ", style: ElevatedButton.styleFrom(backgroundColor: Color(" ++ hex
          ++ "), foregroundColor: Colors.black87)"
      | none => ""
  let xml_onclick := getOr2 attrs "onClick" "android:onClick"
  let handler_name :=
    if xml_onclick ≠ "" then
      let camel0 :=
        if startsWithStr xml_onclick "on" then String.mk (xml_onclick.data.drop 2)
        else xml_onclick
      let camel := _to_camel camel0
      if camel = "" then "_onUnknownPressed"
      else "_on" ++ upperFirst camel ++ "Pressed"
    else
      match _find_handler logic_map xml_id with
      | some hn => hn
      | none =>
        let camel := _to_camel xml_id
        if camel = "" then "_onUnknownPressed"
        else "_on" ++ upperFirst camel ++ "Pressed"
  let style_part :=
    if style_part0 = "" then
      ", style: ElevatedButton.styleFrom(backgroundColor: Colors.grey.shade300, foregroundColor: Colors.black87)"
    else style_part0
  "ElevatedButton(onPressed: () => " ++ handler_name ++ "(context), child: "
    ++ label_widget ++ style_part ++ ")"

/-- Embeds the `TextView` branch of `translate_view` (view_rules.py lines
338-368). -/
def translate_textview_body (fs : Fs) (attrs : List (String × String))
    (rz : Option ResourceResolver) (logic_map : List (String × String)) :
    String :=
  let xml_id := _id_base ((plookup attrs "id").getD "")
  let handler_name := _find_handler logic_map xml_id
  let text_raw := (plookup attrs "text").getD ""
  let text0 :=
    match rz with
    | some r => r.resolve text_raw
    | none => text_raw
  let text := if text0 = "" ∧ xml_id ≠ "" then "[" ++ xml_id ++ "]" else text0
  let body := "Text(\"" ++ escape_dart text ++ "\"" ++ _text_style fs attrs rz ++ ")"
  let xml_onclick := getOr2 attrs "onClick" "android:onClick"
  match handler_name with
  | some hn => "InkWell(onTap: () => " ++ hn ++ "(context), child: " ++ body ++ ")"
  | none =>
    if xml_onclick ≠ "" then
      let camel := _to_camel xml_id
      let fallback :=
        if camel = "" then "_onUnknownPressed"
        else "_on" ++ upperFirst camel ++ "Pressed"
      "InkWell(onTap: () => " ++ fallback ++ "(context), child: " ++ body ++ ")"
    else if pyLower ((plookup attrs "clickable").getD "") = "true" then
      "TextButton(onPressed: null, child: " ++ body ++ ")"
    else body

/-! ## Layout rules (src/translator/layout_rules.py) -/

/-- Embeds `_wrap_match_parent_for_linear` (layout_rules.py lines 6-33):
under a vertical stack a `match_parent` height becomes an `Expanded`
wrapper, and a `match_parent` width becomes an infinite-width `SizedBox`
only when the code is not already `Expanded`-wrapped; under a horizontal
stack a `match_parent` width becomes `Expanded` and the height branch is a
no-op. -/
def _wrap_match_parent_for_linear (child_code : String)
    (child_attrs : List (String × String)) (orientation : String) : String :=
  let w := pyLower ((plookup child_attrs "layout_width").getD "")
  let h := pyLower ((plookup child_attrs "layout_height").getD "")
  if orientation = "vertical" then
    let code :=
      if h = "match_parent" then "Expanded(child: " ++ child_code ++ ")"
      else child_code
    if w = "match_parent" ∧ containsStr code "Expanded" = false then
      "SizedBox(width: double.infinity, child: " ++ code ++ ")"
    else code
  else
    if w = "match_parent" then "Expanded(child: " ++ child_code ++ ")"
    else child_code

/-- Embeds `_axes_from_gravity_for_linear` (layout_rules.py lines
172-209). -/
def _axes_from_gravity_for_linear (gravity orientation : String)
    (allow_center : Bool) : String × String :=
  let g := pyLower gravity
  let main0 := "MainAxisAlignment.start"
  let cross0 := "CrossAxisAlignment.stretch"
  let mc1 :=
    if containsStr g "center" then
      if orientation = "vertical" then
        ((if allow_center then "MainAxisAlignment.center" else main0), cross0)
      else
        ((if (containsStr g "center_horizontal" || containsStr g "center")
              && allow_center then
            "MainAxisAlignment.center" else main0),
         (if containsStr g "center_vertical" || containsStr g "center" then
            "CrossAxisAlignment.center" else cross0))
    else (main0, cross0)
  let mc2 :=
    if containsStr g "end" || containsStr g "right" then
      if orientation = "vertical" then (mc1.1, "CrossAxisAlignment.end")
      else ("MainAxisAlignment.end", mc1.2)
    else mc1
  if containsStr g "start" || containsStr g "left" then
    if orientation = "vertical" then (mc2.1, "CrossAxisAlignment.start")
    else ("MainAxisAlignment.start", mc2.2)
  else mc2

mutual

/-- Embeds `translate_node` (layout_rules.py lines 757-780) together with
the branches of `translate_layout` and `translate_view` that the claims
exercise: the `LinearLayout` container rule (layout_rules.py lines
470-515), the `Button` and `TextView` leaf rules and the unknown-type
fallback of `translate_view` (lines 658-812; its custom-view lookup is dead
code in the source because `ResourceResolver` never carries a `_java_root`
attribute, so `hasattr` is always false and the static-mapping path runs).
Container and leaf branches outside the scope of the claims lower to an
`unembedded`-marker string; no theorem relies on their output. -/
def translateNode (fs : Fs) (rz : Option ResourceResolver)
    (logic_map : List (String × String)) : XmlNode → String
  | .mk t attrs children =>
    if t = "androidx.constraintlayout.widget.ConstraintLayout"
        ∨ t = "ConstraintLayout" then
      "<unembedded container rule: " ++ t ++ ">"
    else if t = "LinearLayout" then
      let orientation := pyLower ((plookup attrs "orientation").getD "vertical")
      let gravity := (plookup attrs "gravity").getD ""
      let codes := translateLinearChildren fs rz logic_map orientation children
      let children_joined := String.intercalate ",\n" codes
      let mc := _axes_from_gravity_for_linear gravity orientation false
      let needs_center_wrap :=
        containsStr (pyLower gravity) "center" ∧ orientation = "vertical"
      if orientation = "horizontal" then
        let cross :=
          if mc.2 = "CrossAxisAlignment.stretch" then "CrossAxisAlignment.center"
          else mc.2
        apply_layout_modifiers fs
          ("Row(mainAxisAlignment: " ++ mc.1 ++ ", crossAxisAlignment: "
            ++ cross ++ ", children: [\n" ++ indentStr children_joined 2
            ++ "\n])") attrs rz
      else if needs_center_wrap then
        apply_layout_modifiers fs
          ("Center(child: Column(mainAxisSize: MainAxisSize.min, mainAxisAlignment: MainAxisAlignment.center, crossAxisAlignment: "
            ++ mc.2 ++ ", children: [\n" ++ indentStr children_joined 2
            ++ "\n]))") attrs rz
      else
        apply_layout_modifiers fs
          ("Column(mainAxisAlignment: " ++ mc.1 ++ ", crossAxisAlignment: "
            ++ mc.2 ++ ", children: [\n" ++ indentStr children_joined 2
            ++ "\n])") attrs rz
    else if t = "FrameLayout" ∨ t = "RelativeLayout" ∨ t = "ScrollView"
        ∨ t = "HorizontalScrollView" ∨ t = "NestedScrollView" ∨ t = "ListView"
        ∨ t = "TableLayout" ∨ t = "TableRow" ∨ t = "RadioGroup" then
      "<unembedded container rule: " ++ t ++ ">"
    else if endsWithStr t "NestedScrollView"
        ∨ endsWithStr t "HorizontalScrollView" then
      "<unembedded container rule: " ++ t ++ ">"
    else if t = "androidx.cardview.widget.CardView"
        ∨ t = "android.support.v7.widget.CardView"
        ∨ t = "com.google.android.material.card.MaterialCardView"
        ∨ t = "CardView" ∨ t = "MaterialCardView"
        ∨ endsWithStr t "CardView" ∨ endsWithStr t "MaterialCardView" then
      "<unembedded leaf rule: " ++ t ++ ">"
    else if t = "RadioButton" then
      "<unembedded leaf rule: " ++ t ++ ">"
    else if endsWithStr (pyLower t) "button" ∨ t = "Button" then
      apply_layout_modifiers fs (translate_button_body attrs rz logic_map)
        attrs rz
    else if t = "TextView" then
      apply_layout_modifiers fs (translate_textview_body fs attrs rz logic_map)
        attrs rz
    else if t = "EditText" ∨ endsWithStr t "EditText"
        ∨ t = "AutoCompleteTextView" ∨ t = "Switch" ∨ t = "Spinner"
        ∨ t = "CheckBox" ∨ t = "ToggleButton" ∨ t = "View"
        ∨ endsWithStr t "ImageView" ∨ t = "AppCompatImageView" then
      "<unembedded leaf rule: " ++ t ++ ">"
    else
      let display_name := lastSplitSegment t '.'
      let width_attr := (plookup attrs "layout_width").getD "match_parent"
      let height_attr := (plookup attrs "layout_height").getD "wrap_content"
      let width_val :=
        if width_attr = "match_parent" ∨ width_attr = "fill_parent" then
          "double.infinity"
        else if containsStr width_attr "dp" then String.mk (removeDp width_attr.data)
        else "200"
      let height_val :=
        if height_attr = "match_parent" ∨ height_attr = "fill_parent" then
          "double.infinity"
        else if containsStr height_attr "dp" then String.mk (removeDp height_attr.data)
        else "200"
      let body :=
        if display_name = "NestedScrollView" then
          "SingleChildScrollView(child: SizedBox.shrink())"
        else if display_name = "BrightnessGradientView" then
          "Container(width: " ++ width_val ++ ", height: " ++ height_val
            ++ ", decoration: BoxDecoration(gradient: LinearGradient(colors: [Colors.white, Colors.black], begin: Alignment.topLeft, end: Alignment.bottomRight)))"
        else if display_name = "ColorGradientView" then
          "Container(width: " ++ width_val ++ ", height: " ++ height_val
            ++ ", decoration: BoxDecoration(gradient: LinearGradient(colors: [Colors.blue, Colors.purple], begin: Alignment.topLeft, end: Alignment.bottomRight)))"
        else
          let dart_children := translateNodeList fs rz logic_map children
          let child_code :=
            match dart_children with
            | [] => "SizedBox.shrink()"
            | [c] => c
            | cs =>
              "Column(children: [\n"
                ++ indentStr (String.intercalate ",\n" cs) 2 ++ "\n])"
          "Container(decoration: BoxDecoration(color: Colors.grey.shade300, borderRadius: BorderRadius.circular(8), border: Border.all(color: Colors.grey.shade600)), child: "
            ++ child_code ++ ")"
      apply_layout_modifiers fs body attrs rz

/-- Child translation for the recursive branches of `translateNode`. -/
def translateNodeList (fs : Fs) (rz : Option ResourceResolver)
    (logic_map : List (String × String)) : List XmlNode → List String
  | [] => []
  | n :: ns =>
    translateNode fs rz logic_map n :: translateNodeList fs rz logic_map ns

/-- Child loop of the `LinearLayout` rule (layout_rules.py lines 475-483):
each non-`view` child is passed through `_wrap_match_parent_for_linear`. -/
def translateLinearChildren (fs : Fs) (rz : Option ResourceResolver)
    (logic_map : List (String × String)) (orientation : String) :
    List XmlNode → List String
  | [] => []
  | ch :: rest =>
    let code0 := translateNode fs rz logic_map ch
    let code :=
      if pyLower ch.kind ≠ "view" then
        _wrap_match_parent_for_linear code0 ch.attrs orientation
      else code0
    code :: translateLinearChildren fs rz logic_map orientation rest

end

theorem startsWith_append (a b pat : String)
    (h : startsWithStr a pat = true) : startsWithStr (a ++ b) pat = true := by
  unfold startsWithStr at h ⊢
  rw [String.data_append]
  rw [List.isPrefixOf_iff_prefix] at h ⊢
  exact h.trans (List.prefix_append a.data b.data)

theorem containsStr_of_startsWith (s pat : String)
    (h : startsWithStr s pat = true) : containsStr s pat = true := by
  unfold startsWithStr at h
  unfold containsStr
  rw [List.any_eq_true]
  refine ⟨s.data, ?_, h⟩
  cases hd : s.data with
  | nil => simp [List.tails]
  | cons c cs =>
    rw [List.tails_cons]
    exact List.mem_cons_self _ _

theorem wrap_match_parent_vertical (code : String)
    (attrs : List (String × String))
    (h : pyLower ((plookup attrs "layout_height").getD "") = "match_parent") :
    _wrap_match_parent_for_linear code attrs "vertical" =
      "Expanded(child: " ++ code ++ ")" := by
  unfold _wrap_match_parent_for_linear
  rw [h]
  have hcont : containsStr ("Expanded(child: " ++ code ++ ")") "Expanded" = true := by
    apply containsStr_of_startsWith
    apply startsWith_append
    apply startsWith_append
    decide
  simp [hcont]

/-- First child of the concrete two-child vertical stack for claim C5. -/
def c5tvA : XmlNode :=
  XmlNode.mk "TextView" [("text", "A"), ("layout_height", "match_parent")] []

/-- Second child of the concrete two-child vertical stack for claim C5. -/
def c5tvB : XmlNode :=
  XmlNode.mk "TextView" [("text", "B"), ("layout_height", "match_parent")] []

/-- The concrete directional-stack container for claim C5. -/
def c5linear : XmlNode :=
  XmlNode.mk "LinearLayout" [("orientation", "vertical")] [c5tvA, c5tvB]

/-- Claim C5, counterexample: in a vertical `LinearLayout` whose two
children are both marked main-axis-fill, the generated expression wraps
both children in `Expanded`, not only the first; the flexible wrapper
occurs twice. -/
theorem c5_counterexample :
    translateNode fsNone none [] c5linear =
      "Column(mainAxisAlignment: MainAxisAlignment.start, crossAxisAlignment: CrossAxisAlignment.stretch, children: [\n  Expanded(child: Text(\"A\")),\n  Expanded(child: Text(\"B\"))\n])"
    ∧ substrCount (translateNode fsNone none [] c5linear) "Expanded(child:" = 2 := by
  exact ⟨rfl, rfl⟩

/-- Claim C5 as amended: in a vertical directional-stack container with
exactly two children both marked main-axis-fill (and neither of the `view`
kind, which the child loop exempts), every such child — not only the
first — receives the flexible `Expanded` wrapper, and the children appear
in the output in source order with no reordering. -/
theorem c5_amended (fs : Fs) (rz : Option ResourceResolver)
    (lm : List (String × String)) (c1 c2 : XmlNode)
    (h1 : pyLower ((plookup c1.attrs "layout_height").getD "") = "match_parent")
    (h2 : pyLower ((plookup c2.attrs "layout_height").getD "") = "match_parent")
    (h3 : pyLower c1.kind ≠ "view") (h4 : pyLower c2.kind ≠ "view") :
    translateNode fs rz lm
      (XmlNode.mk "LinearLayout" [("orientation", "vertical")] [c1, c2]) =
    "Column(mainAxisAlignment: MainAxisAlignment.start, crossAxisAlignment: CrossAxisAlignment.stretch, children: [\n"
      ++ indentStr (String.intercalate ",\n"
          ["Expanded(child: " ++ translateNode fs rz lm c1 ++ ")",
           "Expanded(child: " ++ translateNode fs rz lm c2 ++ ")"]) 2
      ++ "\n])" := by
  have hchildren : translateLinearChildren fs rz lm "vertical" [c1, c2] =
      ["Expanded(child: " ++ translateNode fs rz lm c1 ++ ")",
       "Expanded(child: " ++ translateNode fs rz lm c2 ++ ")"] := by
    simp only [translateLinearChildren]
    rw [if_pos h3, if_pos h4,
      wrap_match_parent_vertical _ _ h1, wrap_match_parent_vertical _ _ h2]
  have happly : ∀ body : String,
      apply_layout_modifiers fs body [("orientation", "vertical")] rz = body := by
    intro body
    rfl
  rw [translateNode]
  rw [if_neg (by decide), if_pos rfl]
  simp only []
  rw [show pyLower ((plookup [("orientation", "vertical")] "orientation").getD
      "vertical") = "vertical" from rfl]
  rw [hchildren]
  rw [show (plookup [(("orientation" : String), ("vertical" : String))]
      "gravity").getD "" = "" from rfl]
  rw [show _axes_from_gravity_for_linear "" "vertical" false =
      ("MainAxisAlignment.start", "CrossAxisAlignment.stretch") from rfl]
  rw [if_neg (by decide), if_neg (by decide)]
  exact happly _

/-- Witness for the amended claim C5 at the concrete two-child stack. -/
theorem c5_amended_witness :
    translateNode fsNone none []
      (XmlNode.mk "LinearLayout" [("orientation", "vertical")] [c5tvA, c5tvB]) =
    "Column(mainAxisAlignment: MainAxisAlignment.start, crossAxisAlignment: CrossAxisAlignment.stretch, children: [\n"
      ++ indentStr (String.intercalate ",\n"
          ["Expanded(child: " ++ translateNode fsNone none [] c5tvA ++ ")",
           "Expanded(child: " ++ translateNode fsNone none [] c5tvB ++ ")"]) 2
      ++ "\n])" :=
  c5_amended fsNone none [] c5tvA c5tvB (by decide) (by decide)
    (by decide) (by decide)

/-! ## Unification-layer collectors (src/translator/generator.py lines
49-198) -/

mutual

/-- Embeds `_collect_ids` (generator.py lines 49-62): pre-order list of the
last slash segment of every truthy `id` attribute. -/
def _collect_ids : XmlNode → List String
  | .mk _ a cs =>
    (match plookup a "id" with
     | some rid => if rid = "" then [] else [lastSplitSegment rid '/']
     | none => []) ++ _collect_ids_list cs

/-- Forest version of `_collect_ids`. -/
def _collect_ids_list : List XmlNode → List String
  | [] => []
  | n :: ns => _collect_ids n ++ _collect_ids_list ns

end

mutual

/-- Embeds `_collect_button_ids_from_xml` (generator.py lines 120-134):
ids of nodes whose lower-cased kind is or ends in `button`. -/
def _collect_button_ids_from_xml : XmlNode → List String
  | .mk t a cs =>
    (match plookup a "id" with
     | some rid =>
       if rid = "" then []
       else if endsWithStr (pyLower t) "button" ∨ pyLower t = "button" then
         [lastSplitSegment rid '/']
       else []
     | none => []) ++ _collect_button_ids_list cs

/-- Forest version of `_collect_button_ids_from_xml`. -/
def _collect_button_ids_list : List XmlNode → List String
  | [] => []
  | n :: ns => _collect_button_ids_from_xml n ++ _collect_button_ids_list ns

end

mutual

/-- Embeds `_collect_onclick_methods_from_xml` (generator.py lines
137-152): maps each id-bearing node's `onClick` attribute. -/
def _collect_onclick_methods_from_xml :
    XmlNode → List (String × String) → List (String × String)
  | .mk _ a cs, m =>
    let m :=
      match plookup a "id" with
      | some rid =>
        if rid = "" then m
        else
          let oc := getOr2 a "onClick" "android:onClick"
          if oc = "" then m else ainsert m (lastSplitSegment rid '/') oc
      | none => m
    _collect_onclick_list cs m

/-- Forest version of `_collect_onclick_methods_from_xml`. -/
def _collect_onclick_list :
    List XmlNode → List (String × String) → List (String × String)
  | [], m => m
  | n :: ns, m => _collect_onclick_list ns (_collect_onclick_methods_from_xml n m)

end

mutual

/-- Embeds `_has_text_field` (generator.py lines 155-172). -/
def _has_text_field : XmlNode → Bool
  | .mk t _ cs =>
    let tl := pyLower t
    if tl = "edittext" || endsWithStr tl "edittext"
        || tl = "checkbox" || endsWithStr tl "checkbox"
        || tl = "switch" || endsWithStr tl "switch"
        || tl = "togglebutton" || endsWithStr tl "togglebutton" then true
    else _has_text_field_list cs

/-- Forest version of `_has_text_field`. -/
def _has_text_field_list : List XmlNode → Bool
  | [] => false
  | n :: ns => _has_text_field n || _has_text_field_list ns

end

/-! ## Logic-map and handler-code construction
(src/translator/generator.py lines 918-1041) -/

/-- Modelled from the spec: `extract_methods` is imported by generator.py
from parser.java_parser but is missing from the sources under `src/`.  Per
the spec (section 4.3, method-extraction pass) it returns, for every `void
methodName(...)` declaration of a companion file, the brace-balanced body
text keyed by method name.  Its result enters this embedding as a list of
records carrying the method name, the raw body text (used by the keyword
guards) and the mini-AST that `_parse_block_to_ast` builds from that text,
in extraction order with distinct names. -/
structure JavaMethod where
  name : String
  src : String
  ast : Block

/-- Failure modes of the embedded generation pipeline. -/
inductive GenError where
  | parseError (msg : String)
  | nameErrorMethodBody
  | unmodelledStatement

/-- Name lookup in the extracted-method list (`onclick_method in
java_methods` / `java_methods[...]`). -/
def jm_lookup (ms : List JavaMethod) (name : String) : Option JavaMethod :=
  ms.find? (fun m => m.name == name)

/-- Database/RecyclerView keywords of the 6-2 guard
(generator.py line 985). -/
def db_keywords : List String :=
  ["AppDatabase", "Room", "journalDao", "getAllJournals", "searchJournals",
   "deleteById", "RecyclerView", "setAdapter", "Adapter"]

/-- A generated handler function definition. -/
def handler_func_src (func_name body : String) : String :=
  "void " ++ func_name ++ "(BuildContext context) \x7b\n"
    ++ indentStr body 2 ++ "\n\x7d"

/-- Embeds loop 6-1 of `_build_logic_and_handlers` (generator.py lines
930-947): for each extracted handler, derive the function name from the
view id, register the logic keys, lower the body, and keep the function
unless the body is empty or a TODO comment.  Statements outside the
embedded lowering arm surface as `unmodelledStatement`. -/
def build_handlers_loop (cap : String → Option String) :
    List (String × ClickHandlerIR) → List (String × String) → List String →
    List String →
    Except GenError (List (String × String) × List String × List String)
  | [], lm, funcs, existing => .ok (lm, funcs, existing)
  | (vid, hir) :: rest, lm, funcs, existing =>
    let base := lastSplitSegment vid '/'
    if base = "" then build_handlers_loop cap rest lm funcs existing
    else
      let existing := existing ++ [base]
      let func_name := "_on" ++ upperFirst base ++ "Pressed"
      let lm := _register_logic_keys lm base func_name
      match _java_ast_block_to_dart cap hir.ast with
      | none => .error .unmodelledStatement
      | some lines =>
        let body := String.intercalate "\n" lines
        if pyStrip body = "" ∨ startsWithStr (pyStrip body) "// TODO" then
          build_handlers_loop cap rest lm funcs existing
        else
          build_handlers_loop cap rest lm
            (funcs ++ [handler_func_src func_name body]) existing

/-- Embeds loop 6-2 of `_build_logic_and_handlers` (generator.py lines
949-1006): buttons without an extracted handler get a name from their
`onClick` attribute or their id; a function body is produced only when the
named method exists among the extracted methods. -/
def build_buttons_loop (cap : String → Option String) (jms : List JavaMethod)
    (onclick_map : List (String × String)) (existing : List String) :
    List String → List (String × String) → List String →
    Except GenError (List (String × String) × List String)
  | [], lm, funcs => .ok (lm, funcs)
  | base :: rest, lm, funcs =>
    if base = "" ∨ base ∈ existing then
      build_buttons_loop cap jms onclick_map existing rest lm funcs
    else
      let onclick_method := (plookup onclick_map base).getD ""
      let func_name :=
        if onclick_method ≠ "" then
          let camel0 :=
            if startsWithStr onclick_method "on" then
              String.mk (onclick_method.data.drop 2)
            else onclick_method
          let camel := _to_camel camel0
          if camel = "" then "_onUnknownPressed"
          else "_on" ++ upperFirst camel ++ "Pressed"
        else
          let camel := _to_camel base
          if camel = "" then "_onUnknownPressed"
          else "_on" ++ upperFirst camel ++ "Pressed"
      let lm := _register_logic_keys lm base func_name
      if onclick_method ≠ "" then
        match jm_lookup jms onclick_method with
        | some m =>
          if db_keywords.any (fun kw => containsStr m.src kw) then
            build_buttons_loop cap jms onclick_map existing rest lm
              (funcs ++ [handler_func_src func_name "// Button handler"])
          else
            match _java_ast_block_to_dart cap m.ast with
            | none => .error .unmodelledStatement
            | some lines =>
              let body := String.intercalate "\n" lines
              if containsStr body "setState(() \x7b _while"
                  ∨ containsStr body "cipherInputStream"
                  ∨ containsStr body "values.add" then
                build_buttons_loop cap jms onclick_map existing rest lm funcs
              else if pyStrip body = "" ∨ startsWithStr (pyStrip body) "// TODO" then
                build_buttons_loop cap jms onclick_map existing rest lm funcs
              else
                build_buttons_loop cap jms onclick_map existing rest lm
                  (funcs ++ [handler_func_src func_name body])
        | none => build_buttons_loop cap jms onclick_map existing rest lm funcs
      else build_buttons_loop cap jms onclick_map existing rest lm funcs

/-- Embeds block 6-3 of `_build_logic_and_handlers` (generator.py lines
1008-1036).  In the source, the loop body consists solely of `continue`
guards and so has no observable effect; the processing block that was meant
to sit inside it is dedented one level and runs exactly once, reading the
loop variable after the loop — a `NameError` when the method dict is empty,
modelled as `nameErrorMethodBody`, and otherwise the processing of the
final method only, with the skip guards not re-checked. -/
def build_methods_tail (cap : String → Option String) (jms : List JavaMethod)
    (has_buttons_or_handlers : Bool) : Except GenError (List String) :=
  if has_buttons_or_handlers then
    match jms.getLast? with
    | none => .error .nameErrorMethodBody
    | some m =>
      match _java_ast_block_to_dart cap m.ast with
      | none => .error .unmodelledStatement
      | some lines =>
        let body := String.intercalate "\n" lines
        if containsStr body "setState(() \x7b _while"
            ∨ containsStr body "cipherInputStream"
            ∨ containsStr body "values.add" then .ok []
        else if pyStrip body ≠ "" ∧ ¬ (startsWithStr (pyStrip body) "// TODO" = true) then
          .ok ["void _" ++ m.name ++ "() \x7b\n" ++ indentStr body 2 ++ "\n\x7d"]
        else .ok []
  else .ok []

/-- Embeds `_build_logic_and_handlers` (generator.py lines 918-1041),
returning the logic map and the joined handler code. -/
def _build_logic_and_handlers (cap : String → Option String)
    (handlers_by_id : List (String × ClickHandlerIR)) (xml_ir : XmlNode)
    (java_methods : List JavaMethod) :
    Except GenError (List (String × String) × String) :=
  match build_handlers_loop cap handlers_by_id [] [] [] with
  | .error e => .error e
  | .ok (lm, handler_funcs, existing) =>
    let button_ids := _collect_button_ids_from_xml xml_ir
    let onclick_map := _collect_onclick_methods_from_xml xml_ir []
    match build_buttons_loop cap java_methods onclick_map existing button_ids
        lm handler_funcs with
    | .error e => .error e
    | .ok (lm, handler_funcs) =>
      match build_methods_tail cap java_methods
          (handler_funcs.length > 0 ∨ button_ids.length > 0) with
      | .error e => .error e
      | .ok method_funcs =>
        let all_funcs := handler_funcs ++ method_funcs
        .ok (lm,
          if all_funcs.isEmpty then "" else String.intercalate "\n\n" all_funcs)

/-! ## Claim C2: the Scenario-B pipeline on concrete data -/

/-- The Scenario-B call site: `submit.setOnClickListener(v -> { finish(); })`
as matched by the registration regex — inline id `submit`, body
` finish(); `, whose mini AST is the single no-argument call. -/
def c2site : CallSite :=
  CallSite.mk "findViewById(R.id.submit)" (some "submit") " finish(); "
    [AstNode.methodCall (some "finish") ""]

/-- The Scenario-B companion source file: one registration, no bindings. -/
def c2javafile : JavaFile := JavaFile.mk [] [c2site]

/-- The handler record the extraction pass is expected to produce. -/
def c2handler : ClickHandlerIR :=
  ClickHandlerIR.mk "_on_click_0" ["submit"] "finish();"
    [AstNode.methodCall (some "finish") ""]

/-- The Scenario-B button element. -/
def c2button : XmlNode :=
  XmlNode.mk "Button" [("id", "@+id/submit"), ("text", "Send")] []

/-- The parsed layout document wrapping the button. -/
def c2doc : XmlNode := XmlNode.mk "document" [] [c2button]

/-- The companion file's `onCreate` as the method-extraction pass yields it:
its body lowers to no Dart statements (`super.onCreate` is neither a
recognised call shape nor a plain word). -/
def c2onCreate : JavaMethod :=
  JavaMethod.mk "onCreate" "super.onCreate(savedInstanceState);"
    [AstNode.methodCall (some "super.onCreate") "savedInstanceState"]

/-- The logic map `_register_logic_keys` builds for id `submit`: the five
candidate spellings collapse to two distinct keys. -/
def c2logic : List (String × String) :=
  [("submit", "_onSubmitPressed"), ("Submit", "_onSubmitPressed")]

/-- Claim C2: for a `Button` with id `submit` and a companion source whose
single registered click-listener body is a no-argument `finish()` call,
extraction yields exactly one handler entry for `submit`; its lowered body
is the single statement `Navigator.maybePop(context);`; the generated
handler code is exactly one function, named `_onSubmitPressed`, with that
body; and the button's generated widget expression invokes
`_onSubmitPressed` — for every float/file oracle and capture oracle, none
of which the path consults. -/
theorem c2_scenario_b (fs : Fs) (cap : String → Option String) :
    extract_click_handlers [c2javafile] ["submit"] = [("submit", c2handler)]
    ∧ _java_ast_block_to_dart cap c2handler.ast
        = some ["Navigator.maybePop(context);"]
    ∧ _build_logic_and_handlers cap [("submit", c2handler)] c2doc [c2onCreate]
        = .ok (c2logic,
            "void _onSubmitPressed(BuildContext context) \x7b\n  Navigator.maybePop(context);\n\x7d")
    ∧ translateNode fs none c2logic c2button
        = "ElevatedButton(onPressed: () => _onSubmitPressed(context), child: Text(\"Send\"), style: ElevatedButton.styleFrom(backgroundColor: Colors.grey.shade300, foregroundColor: Colors.black87))" := by
  refine ⟨rfl, rfl, rfl, ?_⟩
  rfl

/-- Witness for claim C2: the button-expression conjunct instantiated at
the trivial oracles, which the path never consults. -/
theorem c2_scenario_b_witness :
    translateNode fsNone none c2logic c2button
      = "ElevatedButton(onPressed: () => _onSubmitPressed(context), child: Text(\"Send\"), style: ElevatedButton.styleFrom(backgroundColor: Colors.grey.shade300, foregroundColor: Colors.black87))" :=
  (c2_scenario_b fsNone (fun _ => none)).2.2.2

/-! ## Generation entry point (src/translator/generator.py lines 1048-1160)
and claim C8 -/

/-- The observable outputs of `generate_dart_code` short of template
rendering: the step-5 root-background split, the widget tree, the handler
code and the statefulness flag. -/
structure GeneratedScreen where
  root_bg_color : Option String
  root_bg_image : Option String
  root_bg_decoration : Option String
  widget_tree : String
  handlers_code : String
  is_stateful : Bool

/-- The step-5 attribute rewrite `\x7bk: v for k, v in root_attrs.items()
if k != "background"\x7d` applied to the root element. -/
def stripRootBg (n : XmlNode) : XmlNode :=
  XmlNode.mk n.kind (n.attrs.filter (fun p => p.1 ≠ "background")) n.children

/-- Step 5 of `generate_dart_code` (generator.py lines 1105-1140): with a
truthy root background and a resolver, try the drawable path (XML shape
decoration or raster image), else the color resolution; a successful branch
removes the root `background` attribute before translation. -/
def root_bg_split (fs : Fs) (rz : Option ResourceResolver) (xml_ir : XmlNode) :
    Option String × Option String × Option String × XmlNode :=
  let root_bg_raw := (plookup xml_ir.attrs "background").getD ""
  if root_bg_raw ≠ "" then
    match rz with
    | some r =>
      (match r.resolve_drawable_path root_bg_raw with
       | some path =>
         if endsWithStr (pyLower path) ".xml" then
           match fs.shapeDecoration path with
           | some dec => (none, none, some dec, stripRootBg xml_ir)
           | none => (none, none, none, xml_ir)
         else
           (none, get_asset_path_from_drawable path, none, stripRootBg xml_ir)
       | none =>
         let resolved :=
           (fun x => if x = "" then root_bg_raw else x) (r.resolve root_bg_raw)
         match android_color_to_flutter resolved with
         | some hex => (some hex, none, none, stripRootBg xml_ir)
         | none => (none, none, none, xml_ir))
    | none => (none, none, none, xml_ir)
  else (none, none, none, xml_ir)

/-- Embeds `generate_dart_code` (generator.py lines 1048-1160).  The primary
parse enters as an `Except` (an exception of `parse_layout_xml`
propagates uncaught); each sibling layout's parse enters likewise, and a
failed one is skipped by the `try/except: continue` of step 2.  A present
`java_root` enters as the companion files together with the
`extract_methods` result; step 3.5's fragment extraction feeds only
branches outside this embedding and the `FloatingActionButton` id filter of
step 3 nothing here exercises, so both are omitted.  Step 6.5's
template-option scan and step 8's import plumbing concern only the excluded
rendering layer. -/
def generate_dart_code (fs : Fs) (cap : String → Option String)
    (primary : Except String XmlNode) (siblings : List (Except String XmlNode))
    (java : Option (List JavaFile × List JavaMethod))
    (rz : Option ResourceResolver) : Except GenError GeneratedScreen :=
  match primary with
  | .error msg => .error (.parseError msg)
  | .ok xml_ir0 =>
    let bg_map := siblings.foldl (fun m s =>
      match s with
      | .ok sub => collect_backgrounds_from_ir sub m true
      | .error _ => m) []
    let xml_ir := merge_backgrounds_into_main xml_ir0 bg_map
    let handlers_by_id :=
      match java with
      | some (files, _) => extract_click_handlers files (_collect_ids xml_ir)
      | none => []
    let java_methods :=
      match java with
      | some (_, ms) => ms
      | none => []
    match _build_logic_and_handlers cap handlers_by_id xml_ir java_methods with
    | .error e => .error e
    | .ok (logic_map, handlers_code) =>
      let (c0, im, dec, xml2) := root_bg_split fs rz xml_ir
      let root_bg_color :=
        if c0.isNone ∧ im.isNone ∧ dec.isNone then some "0xFFFFFFFF" else c0
      .ok (GeneratedScreen.mk root_bg_color im dec
        (translateNode fs rz logic_map xml2) handlers_code
        (_has_text_field xml2))

/-- The C8 failing layout: a document whose only element is a `Button`
carrying an id. -/
def c8doc : XmlNode :=
  XmlNode.mk "document" [] [XmlNode.mk "Button" [("id", "@+id/submit")] []]

/-- Claim C8: a primary-parse failure does propagate to the caller, and a
sibling-parse failure is skipped with generation unaffected — but the
primary parse is NOT the only fatal failure: on a layout containing a
Button with an id and no companion Java sources, the dedented block 6-3 of
`_build_logic_and_handlers` reads the loop variable of a loop that never
ran, and the resulting `NameError` propagates out of `generate_dart_code`. -/
theorem c8_nonparse_fatal_failure :
    (∀ (fs : Fs) (cap : String → Option String)
        (siblings : List (Except String XmlNode)),
      generate_dart_code fs cap (.error "bad XML") siblings none none
        = .error (.parseError "bad XML"))
    ∧ (∀ (fs : Fs) (cap : String → Option String),
      generate_dart_code fs cap (.ok c8doc) [.error "broken sibling"] none none
        = generate_dart_code fs cap (.ok c8doc) [] none none)
    ∧ (∀ (fs : Fs) (cap : String → Option String),
      generate_dart_code fs cap (.ok c8doc) [] none none
        = .error .nameErrorMethodBody) :=
  ⟨fun _ _ _ => rfl, fun _ _ => rfl, fun _ _ => rfl⟩

end J2F
